import Mathlib

/-!
# EMS power flow card

A shallow embedding of `ems-power-flow-card.ts` (and of its hand-written build
`dist/ems-power-flow-card.js`): the card's methods `setConfig`, `getCardSize`,
`_stateValue`, `_applySign`, `_format` and `render`, over a model of the
JavaScript values the host hands to the card.

* A JavaScript number is an IEEE-754 double, kept exactly: `NaN`, an infinity,
  or a sign with a magnitude `m * 2 ^ e`.
* Host data (`config`, `hass`) has type `any` in the source; it is modelled by
  `JSValue`, the JSON fragment without arrays: `undefined`, `null`, booleans,
  numbers, strings and plain objects.
* A method that can throw returns `Except JSError _`.
-/

set_option autoImplicit false

namespace EmsPowerFlowCard

/-! ## JavaScript numbers -/

/-- An IEEE-754 double: `fin neg m e` is `(-1) ^ neg * m * 2 ^ e`; the two
zeros are `fin false 0 0` and `fin true 0 0`. -/
inductive JSNumber where
  | nan
  | inf (neg : Bool)
  | fin (neg : Bool) (m : Nat) (e : Int)
  deriving DecidableEq, Repr

namespace JSNumber

/-- Unary minus: flips the sign bit; `-NaN` is `NaN`. -/
def neg : JSNumber → JSNumber
  | nan => nan
  | inf s => inf (!s)
  | fin s m e => fin (!s) m e

/-- The global `isNaN` on a number. -/
def isNaN : JSNumber → Bool
  | nan => true
  | _ => false

/-- The real number a finite double stands for (`none` for `NaN` and the
infinities). -/
def toRat? : JSNumber → Option ℚ
  | nan => none
  | inf _ => none
  | fin s m e => some ((if s then -1 else 1) * (m : ℚ) * (2 : ℚ) ^ e)

end JSNumber

/-! ## Rounding a positive rational to a double -/

namespace JSNumber

/-- Halves an even, non-zero mantissa until it is odd (at most `fuel` times),
raising the exponent to keep the value. -/
def stripZeros : Nat → Nat → Int → Nat × Int
  | 0, m, e => (m, e)
  | fuel + 1, m, e =>
    if m ≠ 0 ∧ m % 2 = 0 then stripZeros fuel (m / 2) (e + 1) else (m, e)

/-- Counts the halvings that bring `n` below 2 (at most `fuel` of them). -/
def floorLog2Aux : Nat → Nat → Nat → Nat
  | 0, _, acc => acc
  | fuel + 1, n, acc => if n < 2 then acc else floorLog2Aux fuel (n / 2) (acc + 1)

/-- The position of the highest set bit: `2 ^ floorLog2 n ≤ n < 2 ^ (floorLog2 n + 1)`
for `n > 0`. -/
def floorLog2 (n : Nat) : Nat := floorLog2Aux n n 0

/-- The canonical form of a double: an odd mantissa, or `0 * 2 ^ 0`. -/
def normalize : JSNumber → JSNumber
  | fin s m e =>
    if m = 0 then fin s 0 0
    else fin s (stripZeros (floorLog2 m + 1) m e).1 (stripZeros (floorLog2 m + 1) m e).2
  | x => x

/-- The double nearest to `num / den` (round to nearest, ties to even,
53 bits of mantissa, exponents `-1074 .. 971`, overflow to `+Infinity`). -/
def roundPos (num den : Nat) : JSNumber :=
  if num = 0 ∨ den = 0 then fin false 0 0
  else
    let d : Int := (floorLog2 num : Int) - (floorLog2 den : Int)
    let atLeast : Bool :=
      if 0 ≤ d then decide (den * 2 ^ d.toNat ≤ num) else decide (den ≤ num * 2 ^ (-d).toNat)
    let E : Int := if atLeast then d else d - 1
    let e : Int := max (E - 52) (-1074)
    let N : Nat := if 0 ≤ e then num else num * 2 ^ (-e).toNat
    let D : Nat := if 0 ≤ e then den * 2 ^ e.toNat else den
    let q0 : Nat := N / D
    let r : Nat := N % D
    let q : Nat := if D < 2 * r ∨ (2 * r = D ∧ q0 % 2 = 1) then q0 + 1 else q0
    if 1024 ≤ (floorLog2 q : Int) + e then inf false
    else normalize (fin false q e)

/-- The double nearest to `digits * 10 ^ exp10`, with the sign `s`. -/
def ofDecimal (s : Bool) (digits : Nat) (exp10 : Int) : JSNumber :=
  let r := if 0 ≤ exp10 then roundPos (digits * 10 ^ exp10.toNat) 1
           else roundPos digits (10 ^ (-exp10).toNat)
  if s then r.neg else r

/-- The double for a natural number. -/
def ofNat (n : Nat) : JSNumber := roundPos n 1

/-- The double for an integer. -/
def ofInt (i : Int) : JSNumber := ofDecimal (decide (i < 0)) i.natAbs 0

end JSNumber

/-! ## `Number::toString` -/

namespace JSNumber

/-- The last `width` decimal digits of `x`, most significant first, with
leading zeros. -/
def zeroPad : Nat → Nat → List Char
  | 0, _ => []
  | width + 1, x => zeroPad width (x / 10) ++ [Nat.digitChar (x % 10)]

/-- The number of decimal digits of `n` (1 for `0`), counted in at most `fuel`
steps. -/
def decimalLength : Nat → Nat → Nat
  | 0, _ => 1
  | fuel + 1, n => if n < 10 then 1 else decimalLength fuel (n / 10) + 1

/-- The decimal digits of `n`, most significant first, without leading zeros
(`0` for zero). -/
def decimalDigits (n : Nat) : List Char := zeroPad (decimalLength n n) n

/-- The magnitude `m * 2 ^ e` as a fraction of naturals. -/
def frac (m : Nat) (e : Int) : Nat × Nat :=
  if 0 ≤ e then (m * 2 ^ e.toNat, 1) else (m, 2 ^ (-e).toNat)

/-- The fraction `num / den` divided by `10 ^ p`. -/
def scaled (num den : Nat) (p : Int) : Nat × Nat :=
  if 0 ≤ p then (num, den * 10 ^ p.toNat) else (num * 10 ^ (-p).toNat, den)

/-- The least `j` from the given one on with `den ≤ num * 10 ^ j`. -/
def firstScale : Nat → Nat → Nat → Nat → Nat
  | 0, _, _, j => j
  | fuel + 1, num, den, j =>
    if den ≤ num * 10 ^ j then j else firstScale fuel num den (j + 1)

/-- For `0 < num / den`: the integer `n` with `10 ^ (n - 1) ≤ num / den < 10 ^ n`. -/
def decimalExponent (num den : Nat) : Int :=
  if den ≤ num then (decimalLength (num / den) (num / den) : Int)
  else 1 - (firstScale (floorLog2 den + 1) num den 1 : Int)

/-- The shortest digit string that reads back as `x`: tries `k = 1, 2, ...`
digits and returns `(s, n)` with `s * 10 ^ (n - k)` rounding to `x`, the
candidate nearest to `num / den` when two qualify (the even one on a tie). -/
def shortestDigits (x : JSNumber) (num den : Nat) (n : Int) : Nat → Nat → Nat × Int
  | 0, k => ((scaled num den (n - k)).1 / (scaled num den (n - k)).2, n)
  | fuel + 1, k =>
    let A := (scaled num den (n - k)).1
    let B := (scaled num den (n - k)).2
    let lo := A / B
    let r := A % B
    let hi := lo + 1
    let okLo : Bool := decide (ofDecimal false lo (n - k) = x)
    let okHi : Bool := decide (ofDecimal false hi (n - k) = x)
    let pick : Option Nat :=
      if okLo && okHi then
        (if 2 * r < B then some lo else if B < 2 * r then some hi
         else if lo % 2 = 0 then some lo else some hi)
      else if okLo then some lo
      else if okHi then some hi
      else none
    match pick with
    | some s => if s = 10 ^ k then (s / 10, n + 1) else (s, n)
    | none => shortestDigits x num den n fuel (k + 1)

/-- The exponent suffix `e+21`, `e-7`, ... for the decimal exponent `n`. -/
def exponentSuffix (n : Int) : List Char :=
  'e' :: (if 1 ≤ n then '+' else '-') :: decimalDigits (n - 1).natAbs

/-- Lays out the digits `ds` of `s` with the decimal exponent `n`, as the
last steps of `Number::toString` prescribe. -/
def layout (ds : List Char) (n : Int) : List Char :=
  let k : Int := ds.length
  if k ≤ n ∧ n ≤ 21 then ds ++ List.replicate (n - k).toNat '0'
  else if 0 < n ∧ n ≤ 21 then ds.take n.toNat ++ '.' :: ds.drop n.toNat
  else if -6 < n ∧ n ≤ 0 then '0' :: '.' :: (List.replicate (-n).toNat '0' ++ ds)
  else
    match ds with
    | [d] => d :: exponentSuffix n
    | d :: rest => d :: '.' :: (rest ++ exponentSuffix n)
    | [] => exponentSuffix n

/-- The text of a positive finite double `m * 2 ^ e`. -/
def posToString (m : Nat) (e : Int) : List Char :=
  let num := (frac m e).1
  let den := (frac m e).2
  let sn := shortestDigits (normalize (fin false m e)) num den (decimalExponent num den) 17 1
  layout (decimalDigits sn.1) sn.2

/-- The operation `Number::toString(x)` in radix 10. -/
def toString : JSNumber → String
  | nan => "NaN"
  | inf false => "Infinity"
  | inf true => "-Infinity"
  | fin s m e =>
    if m = 0 then "0"
    else String.mk ((if s then ['-'] else []) ++ posToString m e)

end JSNumber

/-! ## Numeric literals in strings -/

/-- The characters `StrWhiteSpaceChar` of the string-to-number grammar: white
space and line terminators. -/
def isStrWhiteSpaceChar (c : Char) : Bool :=
  let n := c.toNat
  n == 0x09 || n == 0x0A || n == 0x0B || n == 0x0C || n == 0x0D || n == 0x20 ||
  n == 0xA0 || n == 0x1680 || (0x2000 ≤ n && n ≤ 0x200A) || n == 0x2028 ||
  n == 0x2029 || n == 0x202F || n == 0x205F || n == 0x3000 || n == 0xFEFF

/-- A decimal digit `0` .. `9`. -/
def isDecimalDigit (c : Char) : Bool := 48 ≤ c.toNat && c.toNat ≤ 57

/-- The leading decimal digits of a text, and what follows them. -/
def spanDigits : List Char → List Char × List Char
  | [] => ([], [])
  | c :: cs =>
    if isDecimalDigit c then (c :: (spanDigits cs).1, (spanDigits cs).2) else ([], c :: cs)

/-- The natural number a digit string denotes. -/
def digitsValue (ds : List Char) : Nat :=
  ds.foldl (fun n c => 10 * n + (c.toNat - 48)) 0

/-- The magnitude of a `StrUnsignedDecimalLiteral`: `Infinity`, or
`digits * 10 ^ exp10`. -/
inductive Magnitude where
  | infinity
  | decimal (digits : Nat) (exp10 : Int)
  deriving DecidableEq, Repr

/-- An optional `ExponentPart` at the head of `rest`: its value and what
follows; without digits after the `e` nothing is consumed. -/
def scanExponent (rest : List Char) : Int × List Char :=
  match rest with
  | [] => (0, [])
  | c :: r =>
    if c = 'e' ∨ c = 'E' then
      let signed : Bool × List Char :=
        match r with
        | '+' :: r2 => (false, r2)
        | '-' :: r2 => (true, r2)
        | _ => (false, r)
      let ds := (spanDigits signed.2).1
      if ds = [] then (0, rest)
      else ((if signed.1 then -(digitsValue ds : Int) else (digitsValue ds : Int)),
            (spanDigits signed.2).2)
    else (0, rest)

/-- The longest prefix of a text that is a `StrUnsignedDecimalLiteral`, as its
magnitude with the text after it; `none` when no prefix is one. -/
def scanUnsigned (cs : List Char) : Option (Magnitude × List Char) :=
  match cs with
  | 'I' :: 'n' :: 'f' :: 'i' :: 'n' :: 'i' :: 't' :: 'y' :: rest => some (.infinity, rest)
  | _ =>
    let ip := (spanDigits cs).1
    let r1 := (spanDigits cs).2
    match r1 with
    | '.' :: r2 =>
      let fp := (spanDigits r2).1
      let r3 := (spanDigits r2).2
      if ip = [] ∧ fp = [] then none
      else
        some (.decimal (digitsValue (ip ++ fp))
                ((scanExponent r3).1 - (fp.length : Int)), (scanExponent r3).2)
    | _ =>
      if ip = [] then none
      else some (.decimal (digitsValue ip) (scanExponent r1).1, (scanExponent r1).2)

/-- The longest prefix that is a `StrDecimalLiteral` (an optional sign, then
an unsigned literal): its sign, its magnitude and the rest of the text. -/
def scanDecimal (cs : List Char) : Option (Bool × Magnitude × List Char) :=
  match cs with
  | '+' :: r => (scanUnsigned r).map (fun p => (false, p.1, p.2))
  | '-' :: r => (scanUnsigned r).map (fun p => (true, p.1, p.2))
  | _ => (scanUnsigned cs).map (fun p => (false, p.1, p.2))

/-- The Number value of a signed literal (`-0` for a negated zero). -/
def literalValue (neg : Bool) : Magnitude → JSNumber
  | .infinity => .inf neg
  | .decimal digits exp10 => JSNumber.ofDecimal neg digits exp10

/-- The value of one digit in the given radix, if it is one. -/
def radixDigit (radix : Nat) (c : Char) : Option Nat :=
  let n := c.toNat
  let v : Nat :=
    if 48 ≤ n ∧ n ≤ 57 then n - 48
    else if 97 ≤ n ∧ n ≤ 102 then n - 87
    else if 65 ≤ n ∧ n ≤ 70 then n - 55
    else radix
  if v < radix then some v else none

/-- The value of a digit string in the given radix; `none` if empty or if a
character is no digit. -/
def radixValue (radix : Nat) (cs : List Char) : Option Nat :=
  if cs = [] then none
  else cs.foldl (fun acc c => acc.bind (fun n => (radixDigit radix c).map (fun d => radix * n + d)))
    (some 0)

/-- The value of a `NonDecimalIntegerLiteral` (`0x..`, `0o..`, `0b..`). -/
def nonDecimalValue (cs : List Char) : Option Nat :=
  match cs with
  | '0' :: 'x' :: r => radixValue 16 r
  | '0' :: 'X' :: r => radixValue 16 r
  | '0' :: 'o' :: r => radixValue 8 r
  | '0' :: 'O' :: r => radixValue 8 r
  | '0' :: 'b' :: r => radixValue 2 r
  | '0' :: 'B' :: r => radixValue 2 r
  | _ => none

/-- The operation `StringToNumber`: white space is trimmed at both ends; an
empty text is `+0`; otherwise the whole text must be a decimal or a
non-decimal integer literal, else the result is `NaN`. -/
def stringToNumber (s : String) : JSNumber :=
  let t := ((s.toList.dropWhile isStrWhiteSpaceChar).reverse.dropWhile isStrWhiteSpaceChar).reverse
  if t = [] then .fin false 0 0
  else
    match scanDecimal t with
    | some (neg, mag, []) => literalValue neg mag
    | _ =>
      match nonDecimalValue t with
      | some n => JSNumber.ofNat n
      | none => .nan

/-- The global `parseFloat` on a string: leading white space is skipped and
the longest prefix that is a `StrDecimalLiteral` is evaluated; `NaN` when there
is none. -/
def parseFloatString (s : String) : JSNumber :=
  match scanDecimal (s.toList.dropWhile isStrWhiteSpaceChar) with
  | some (neg, mag, _) => literalValue neg mag
  | none => .nan

/-! ## JavaScript values -/

/-- The values the host can hand to the card. An object is its list of own
properties. -/
inductive JSValue where
  | undefined
  | null
  | bool (b : Bool)
  | number (n : JSNumber)
  | string (s : String)
  | object (fields : List (String × JSValue))

mutual
/-- Equality of values is decidable. -/
def JSValue.decEq : (a b : JSValue) → Decidable (a = b)
  | .undefined, .undefined => isTrue rfl
  | .null, .null => isTrue rfl
  | .bool x, .bool y =>
    if h : x = y then isTrue (congrArg JSValue.bool h)
    else isFalse (fun h2 => h (JSValue.bool.inj h2))
  | .number x, .number y =>
    if h : x = y then isTrue (congrArg JSValue.number h)
    else isFalse (fun h2 => h (JSValue.number.inj h2))
  | .string x, .string y =>
    if h : x = y then isTrue (congrArg JSValue.string h)
    else isFalse (fun h2 => h (JSValue.string.inj h2))
  | .object fs, .object gs =>
    match JSValue.decEqFields fs gs with
    | isTrue h => isTrue (congrArg JSValue.object h)
    | isFalse h => isFalse (fun h2 => h (JSValue.object.inj h2))
  | .undefined, .null | .undefined, .bool _ | .undefined, .number _ | .undefined, .string _
  | .undefined, .object _ | .null, .undefined | .null, .bool _ | .null, .number _
  | .null, .string _ | .null, .object _ | .bool _, .undefined | .bool _, .null
  | .bool _, .number _ | .bool _, .string _ | .bool _, .object _ | .number _, .undefined
  | .number _, .null | .number _, .bool _ | .number _, .string _ | .number _, .object _
  | .string _, .undefined | .string _, .null | .string _, .bool _ | .string _, .number _
  | .string _, .object _ | .object _, .undefined | .object _, .null | .object _, .bool _
  | .object _, .number _ | .object _, .string _ => isFalse (fun h => JSValue.noConfusion h)
/-- Equality of property lists is decidable. -/
def JSValue.decEqFields : (a b : List (String × JSValue)) → Decidable (a = b)
  | [], [] => isTrue rfl
  | [], _ :: _ => isFalse (fun h => List.noConfusion h)
  | _ :: _, [] => isFalse (fun h => List.noConfusion h)
  | (k, v) :: fs, (k2, v2) :: gs =>
    if hk : k = k2 then
      match JSValue.decEq v v2 with
      | isTrue hv =>
        match JSValue.decEqFields fs gs with
        | isTrue hf => isTrue (by rw [hk, hv, hf])
        | isFalse hf => isFalse (fun h => hf (List.cons.inj h).2)
      | isFalse hv => isFalse (fun h => hv (Prod.mk.inj (List.cons.inj h).1).2)
    else isFalse (fun h => hk (Prod.mk.inj (List.cons.inj h).1).1)
end

instance : DecidableEq JSValue := JSValue.decEq

/-- The errors the modelled code can throw. -/
inductive JSError where
  | typeError
  | rangeError
  | error (message : String)
  deriving DecidableEq, Repr

/-- Equality of results is decidable. -/
instance instDecidableEqExcept {ε α : Type} [DecidableEq ε] [DecidableEq α] :
    DecidableEq (Except ε α)
  | .ok a, .ok b =>
    if h : a = b then isTrue (congrArg Except.ok h) else isFalse (fun h2 => h (Except.ok.inj h2))
  | .error a, .error b =>
    if h : a = b then isTrue (congrArg Except.error h)
    else isFalse (fun h2 => h (Except.error.inj h2))
  | .ok _, .error _ => isFalse (fun h => Except.noConfusion h)
  | .error _, .ok _ => isFalse (fun h => Except.noConfusion h)

/-! ## Conversions and property access -/

namespace JSValue

/-- The value is `undefined` or `null` (what `??` and `?.` test). -/
def isNullish : JSValue → Bool
  | undefined => true
  | null => true
  | _ => false

/-- The operation `ToBoolean`: `undefined`, `null`, `false`, `+0`, `-0`, `NaN`
and the empty string are falsy, everything else is truthy. -/
def truthy : JSValue → Bool
  | undefined => false
  | null => false
  | bool b => b
  | number .nan => false
  | number (.inf _) => true
  | number (.fin _ m _) => decide (m ≠ 0)
  | string s => decide (s ≠ "")
  | object _ => true

/-- The own property `key` of a property list, `undefined` if there is none. -/
def own (fields : List (String × JSValue)) (key : String) : JSValue :=
  match fields with
  | [] => undefined
  | (k, v) :: rest => if k = key then v else own rest key

/-- Whether a property list has the own property `key`. -/
def hasOwn (fields : List (String × JSValue)) (key : String) : Bool :=
  match fields with
  | [] => false
  | (k, _) :: rest => if k = key then true else hasOwn rest key

/-- The operation `ToString`. A plain object prints as `[object Object]`
through the inherited `toString`; when an own data property `toString` shadows
it no conversion method is left and a `TypeError` is thrown. -/
def toString : JSValue → Except JSError String
  | undefined => .ok "undefined"
  | null => .ok "null"
  | bool true => .ok "true"
  | bool false => .ok "false"
  | number n => .ok n.toString
  | string s => .ok s
  | object fields => if hasOwn fields "toString" then .error .typeError else .ok "[object Object]"

/-- The operation `ToNumber`. -/
def toNumber : JSValue → Except JSError JSNumber
  | undefined => .ok .nan
  | null => .ok (.fin false 0 0)
  | bool true => .ok (JSNumber.ofNat 1)
  | bool false => .ok (.fin false 0 0)
  | number n => .ok n
  | string s => .ok (stringToNumber s)
  | object fields => if hasOwn fields "toString" then .error .typeError else .ok .nan

/-- The operation `ToIntegerOrInfinity`; `none` stands for either infinity. -/
def toIntegerOrInfinity (v : JSValue) : Except JSError (Option Int) :=
  match toNumber v with
  | .error err => .error err
  | .ok .nan => .ok (some 0)
  | .ok (.inf _) => .ok none
  | .ok (.fin s m e) =>
    let t : Nat := if 0 ≤ e then m * 2 ^ e.toNat else m / 2 ^ (-e).toNat
    .ok (some (if s then -(t : Int) else (t : Int)))

/-- The property `key` of a value that is neither `undefined` nor `null`: an
object yields its own property or `undefined`; a boolean, number or string
yields `undefined`. Inherited members (the methods of the prototypes, the
indices and `length` of a string) are left out: none carries one of the names
the card reads, and none has a `state` property. -/
def get (v : JSValue) (key : String) : JSValue :=
  match v with
  | object fields => own fields key
  | _ => undefined

/-- Property read `v[key]` with a string key: a `TypeError` on `undefined` and
`null`, the property otherwise. -/
def getProp (v : JSValue) (key : String) : Except JSError JSValue :=
  if v.isNullish then .error .typeError else .ok (v.get key)

end JSValue

/-- The method `Number.prototype.toFixed(fractionDigits)`: a `RangeError`
unless the digit count, converted to an integer, lies in `0 .. 100`; the text
of `Number::toString` for `NaN`, the infinities and magnitudes from `10 ^ 21`
on; otherwise the integer `n` nearest to `x * 10 ^ f` (the larger on a tie),
written with a point before its last `f` digits. -/
def JSNumber.toFixed (x : JSNumber) (fractionDigits : JSValue) : Except JSError String :=
  match fractionDigits.toIntegerOrInfinity with
  | .error err => .error err
  | .ok none => .error .rangeError
  | .ok (some fi) =>
    if fi < 0 ∨ 100 < fi then .error .rangeError
    else
      match x with
      | .nan => .ok x.toString
      | .inf _ => .ok x.toString
      | .fin s m e =>
        let f := fi.toNat
        let sign : List Char := if s ∧ m ≠ 0 then ['-'] else []
        let num := (JSNumber.frac m e).1
        let den := (JSNumber.frac m e).2
        if 10 ^ 21 * den ≤ num then
          .ok (String.mk (sign ++ (JSNumber.fin false m e).toString.toList))
        else
          let n := (2 * num * 10 ^ f + den) / (2 * den)
          let ds := JSNumber.decimalDigits n
          let padded := List.replicate (f + 1 - ds.length) '0' ++ ds
          if f = 0 then .ok (String.mk (sign ++ ds))
          else
            .ok (String.mk (sign ++ padded.take (padded.length - f) ++ '.' ::
              padded.drop (padded.length - f)))

/-- The global `parseFloat(value)`: the argument is converted with `ToString`
and parsed as a string. -/
def parseFloat (v : JSValue) : Except JSError JSNumber :=
  match v.toString with
  | .error err => .error err
  | .ok s => .ok (parseFloatString s)

/-! ## The card -/

/-- The two fields of the element the methods read: the host's `hass` object
(`undefined` until the host supplies it) and the stored configuration. -/
structure Card where
  hass : JSValue
  config : JSValue
  deriving DecidableEq

/-- A freshly constructed card: `hass` unset, `config = {}`. -/
def Card.initial : Card := ⟨.undefined, .object []⟩

/-- The method `setConfig(config)`: throws unless `config.entities` is truthy,
otherwise stores the configuration. -/
def setConfig (card : Card) (config : JSValue) : Except JSError Card :=
  match config.getProp "entities" with
  | .error err => .error err
  | .ok entities =>
    if !entities.truthy then .error (.error "Invalid configuration: `entities` required")
    else .ok { card with config := config }

/-- The method `getCardSize()`. -/
def getCardSize (_card : Card) : Nat := 3

/-- The method `_stateValue(entityId)` of the TypeScript source:
`this.hass?.states?.[entityId]`, then `parseFloat` of the record's `state`,
with `NaN` turned into `null` (`none`). The key of the lookup is
`ToString(entityId)`. -/
def _stateValue (card : Card) (entityId : JSValue) : Except JSError (Option JSNumber) := do
  let states ← if card.hass.isNullish then pure JSValue.undefined else card.hass.getProp "states"
  let stateObj ←
    if states.isNullish then pure JSValue.undefined
    else do
      let key ← entityId.toString
      states.getProp key
  if !stateObj.truthy then pure none
  else do
    let val ← parseFloat (← stateObj.getProp "state")
    pure (if val.isNaN then none else some val)

/-! ## The card: sign normalisation -/

set_option linter.unusedVariables false in
/-- The method `_applySign(value, sign, type)`. `value` is `number | null`
(`none` is `null`), `sign` is whatever the configuration holds, `type` is the
string the caller passes (`'pv'`, `'grid'` or `'bat'`). -/
def _applySign (value : Option JSNumber) (sign : JSValue) (type : String) : Option JSNumber :=
  match value with
  | none => none
  | some v =>
    match sign with
    | .string "pv_neg_gen" => some v.neg
    | .string "grid_neg_import" => some v.neg
    | .string "bat_pos_charge" => some v.neg
    | _ => some v

/-! ## The card: formatting and rendering -/

/-- The method `_format(value)` of the TypeScript source: `decimals` and
`unit` default with `??`. -/
def _format (card : Card) (value : Option JSNumber) : Except JSError String :=
  match value with
  | none => .ok "--"
  | some v => do
    let d ← card.config.getProp "decimals"
    let decimals := if d.isNullish then JSValue.number (JSNumber.ofNat 1) else d
    let u ← card.config.getProp "unit"
    let unit := if u.isNullish then JSValue.string "W" else u
    let digits ← v.toFixed decimals
    let unitText ← unit.toString
    pure (digits ++ " " ++ unitText)

/-- The nodes of the rendered card, in document order. A `row` is a label and
a value; a `battery` block is the label (the value put into the template), the
power text (after the static `P: `) and the state-of-charge text (after the
static `SoC: `). -/
inductive Node where
  | row (label : String) (value : String)
  | battery (label : JSValue) (power : String) (soc : String)
  deriving DecidableEq

/-- The state-of-charge text of a battery block:
`soc !== null && soc !== undefined ? soc.toFixed(1) + ' %' : '--'`. -/
def socText (soc : Option JSNumber) : Except JSError String :=
  match soc with
  | none => .ok "--"
  | some v => do
    let digits ← v.toFixed (.number (JSNumber.ofNat 1))
    pure (digits ++ " %")

/-- The expression `a || b`. -/
def JSValue.orElse (a b : JSValue) : JSValue := if a.truthy then a else b

/-- The method `render()` of the TypeScript source; the empty template is the
empty list of nodes. -/
def render (card : Card) : Except JSError (List Node) :=
  if !card.hass.truthy then .ok []
  else do
    let entities ← card.config.getProp "entities"
    let rawPv ← _stateValue card (← entities.getProp "pv_power")
    let pvVal := _applySign rawPv (← entities.getProp "pv_sign") "pv"
    let homeId ← entities.getProp "home_power"
    let homeVal ← if homeId.truthy then _stateValue card homeId else pure none
    let rawGrid ← _stateValue card (← entities.getProp "grid_power")
    let gridVal := _applySign rawGrid (← entities.getProp "grid_sign") "grid"
    let bat1Cfg := (← entities.getProp "battery_1").orElse (.object [])
    let rawBat1 ← _stateValue card (← bat1Cfg.getProp "power")
    let bat1Val := _applySign rawBat1 (← bat1Cfg.getProp "sign") "bat"
    let soc1Id ← bat1Cfg.getProp "soc"
    let bat1Soc ← if soc1Id.truthy then _stateValue card soc1Id else pure none
    let bat2Cfg := (← entities.getProp "battery_2").orElse (.object [])
    let rawBat2 ← _stateValue card (← bat2Cfg.getProp "power")
    let bat2Val := _applySign rawBat2 (← bat2Cfg.getProp "sign") "bat"
    let soc2Id ← bat2Cfg.getProp "soc"
    let bat2Soc ← if soc2Id.truthy then _stateValue card soc2Id else pure none
    let pvText ← _format card pvVal
    let homeText ← _format card homeVal
    let gridText ← _format card gridVal
    let name1 := (← bat1Cfg.getProp "name").orElse (.string "Battery 1")
    let power1 ← _format card bat1Val
    let soc1 ← socText bat1Soc
    let name2 := (← bat2Cfg.getProp "name").orElse (.string "Battery 2")
    let power2 ← _format card bat2Val
    let soc2 ← socText bat2Soc
    pure [.row "PV" pvText, .row "Home" homeText, .row "Grid" gridText,
          .battery name1 power1 soc1, .battery name2 power2 soc2]

/-! ## The hand-written build `dist/ems-power-flow-card.js` -/

namespace Dist

/-- The method `setConfig(config)` of the build. -/
def setConfig (card : Card) (config : JSValue) : Except JSError Card :=
  match config.getProp "entities" with
  | .error err => .error err
  | .ok entities =>
    if !entities.truthy then .error (.error "Invalid configuration: `entities` required")
    else .ok { card with config := config }

/-- The method `getCardSize()` of the build. -/
def getCardSize (_card : Card) : Nat := 3

/-- The method `_stateValue(entityId)` of the build:
`this.hass && this.hass.states && this.hass.states[entityId]`. -/
def _stateValue (card : Card) (entityId : JSValue) : Except JSError (Option JSNumber) := do
  let states ← if !card.hass.truthy then pure card.hass else card.hass.getProp "states"
  let stateObj ←
    if !states.truthy then pure states
    else do
      let key ← entityId.toString
      states.getProp key
  if !stateObj.truthy then pure none
  else do
    let val ← parseFloat (← stateObj.getProp "state")
    pure (if val.isNaN then none else some val)

set_option linter.unusedVariables false in
/-- The method `_applySign(value, sign, type)` of the build. -/
def _applySign (value : Option JSNumber) (sign : JSValue) (type : String) : Option JSNumber :=
  match value with
  | none => none
  | some v =>
    match sign with
    | .string "pv_neg_gen" => some v.neg
    | .string "grid_neg_import" => some v.neg
    | .string "bat_pos_charge" => some v.neg
    | _ => some v

/-- The method `_format(value)` of the build: `decimals` defaults with
`!== undefined`, `unit` with `||`. -/
def _format (card : Card) (value : Option JSNumber) : Except JSError String :=
  match value with
  | none => .ok "--"
  | some v => do
    let d ← card.config.getProp "decimals"
    let decimals := match d with
      | .undefined => JSValue.number (JSNumber.ofNat 1)
      | _ => d
    let u ← card.config.getProp "unit"
    let unit := u.orElse (.string "W")
    let digits ← v.toFixed decimals
    let unitText ← unit.toString
    pure (digits ++ " " ++ unitText)

/-- The method `render()` of the build. -/
def render (card : Card) : Except JSError (List Node) :=
  if !card.hass.truthy then .ok []
  else do
    let entities ← card.config.getProp "entities"
    let rawPv ← _stateValue card (← entities.getProp "pv_power")
    let pvVal := _applySign rawPv (← entities.getProp "pv_sign") "pv"
    let homeId ← entities.getProp "home_power"
    let homeVal ← if homeId.truthy then _stateValue card homeId else pure none
    let rawGrid ← _stateValue card (← entities.getProp "grid_power")
    let gridVal := _applySign rawGrid (← entities.getProp "grid_sign") "grid"
    let bat1Cfg := (← entities.getProp "battery_1").orElse (.object [])
    let rawBat1 ← _stateValue card (← bat1Cfg.getProp "power")
    let bat1Val := _applySign rawBat1 (← bat1Cfg.getProp "sign") "bat"
    let soc1Id ← bat1Cfg.getProp "soc"
    let bat1Soc ← if soc1Id.truthy then _stateValue card soc1Id else pure none
    let bat2Cfg := (← entities.getProp "battery_2").orElse (.object [])
    let rawBat2 ← _stateValue card (← bat2Cfg.getProp "power")
    let bat2Val := _applySign rawBat2 (← bat2Cfg.getProp "sign") "bat"
    let soc2Id ← bat2Cfg.getProp "soc"
    let bat2Soc ← if soc2Id.truthy then _stateValue card soc2Id else pure none
    let pvText ← _format card pvVal
    let homeText ← _format card homeVal
    let gridText ← _format card gridVal
    let name1 := (← bat1Cfg.getProp "name").orElse (.string "Battery 1")
    let power1 ← _format card bat1Val
    let soc1 ← socText bat1Soc
    let name2 := (← bat2Cfg.getProp "name").orElse (.string "Battery 2")
    let power2 ← _format card bat2Val
    let soc2 ← socText bat2Soc
    pure [.row "PV" pvText, .row "Home" homeText, .row "Grid" gridText,
          .battery name1 power1 soc1, .battery name2 power2 soc2]

end Dist

/-! ## The spec's wording, and the data of the examples -/

/-- The message of the error `setConfig` throws. -/
def entitiesRequired : JSError := .error "Invalid configuration: `entities` required"

/-- The snapshot `{states: {"undefined": {state: "42"}}}`: its only record is
stored under the key `undefined`. -/
def snapshotWithUndefinedKey : JSValue :=
  .object [("states", .object [("undefined", .object [("state", .string "42")])])]

/-- The spec's "value written with a fixed number `d` of decimal places", for
a finite double `±m * 2 ^ e`: the magnitude is rounded to the nearest multiple
of `10 ^ (-d)` (a half rounds up), and the text is a minus sign for a negative
value, the integer part without leading zeros and, when `d > 0`, a point and
exactly `d` decimals. The rounded integer `n` is `⌊|v| * 10 ^ d + 1 / 2⌋`, see
`roundedDigits_eq_floor` and `JSNumber.toRat?_eq_frac`. -/
def fixedText (s : Bool) (m : Nat) (e : Int) (d : Nat) : String :=
  let num := (JSNumber.frac m e).1
  let den := (JSNumber.frac m e).2
  let n := (2 * num * 10 ^ d + den) / (2 * den)
  String.mk ((if s ∧ m ≠ 0 then ['-'] else []) ++ JSNumber.decimalDigits (n / 10 ^ d) ++
    (if d = 0 then [] else '.' :: JSNumber.zeroPad d (n % 10 ^ d)))

/-- The spec's "`decimals`, default 1": the configured value, or 1 when it is
unset or null. -/
def configuredDecimals (config : JSValue) : JSValue :=
  if (config.get "decimals").isNullish then .number (JSNumber.ofNat 1) else config.get "decimals"

/-- The spec's "`unit`, default `W`": the configured value, or `W` when it is
unset or null. -/
def configuredUnit (config : JSValue) : JSValue :=
  if (config.get "unit").isNullish then .string "W" else config.get "unit"

/-- A value whose conversion to text cannot throw: everything but an object
with an own `toString` property. -/
def JSValue.printable : JSValue → Bool
  | .object fields => !JSValue.hasOwn fields "toString"
  | _ => true

/-- The configured decimals convert to an integer in `0 .. 100`, the range
`toFixed` accepts. -/
def decimalsInRange (config : JSValue) : Bool :=
  match (configuredDecimals config).toIntegerOrInfinity with
  | .ok (some d) => decide (0 ≤ d ∧ d ≤ 100)
  | _ => false

/-- The battery record `entities.battery_1 || {}` (or `battery_2`). -/
def batteryConfig (entities : JSValue) (key : String) : JSValue :=
  (entities.get key).orElse (.object [])

/-- The seven entity identifiers `render` looks up. -/
def entityIds (entities : JSValue) : List JSValue :=
  [entities.get "pv_power", entities.get "home_power", entities.get "grid_power",
   (batteryConfig entities "battery_1").get "power", (batteryConfig entities "battery_1").get "soc",
   (batteryConfig entities "battery_2").get "power", (batteryConfig entities "battery_2").get "soc"]

/-- The data the card turns into numbers and text is fit for that: `decimals`
is in the range of `toFixed`, and neither the unit, nor an entity identifier,
nor the `state` field of a record of the snapshot is an object with an own
`toString` property. -/
structure WellFormed (card : Card) : Prop where
  decimals : decimalsInRange card.config = true
  unit : (configuredUnit card.config).printable = true
  ids : ∀ id ∈ entityIds (card.config.get "entities"), id.printable = true
  states : ∀ key : String, (((card.hass.get "states").get key).get "state").printable = true

/-- The reading of an entity: what `_stateValue` returns (absent where it
throws; `stateValue_ok` shows when it does not). -/
def reading (card : Card) (entityId : JSValue) : Option JSNumber :=
  match _stateValue card entityId with
  | .ok r => r
  | .error _ => none

/-- The text `_format` returns (empty where it throws; `format_ok` shows when
it does not). -/
def formatted (card : Card) (value : Option JSNumber) : String :=
  match _format card value with
  | .ok text => text
  | .error _ => ""

/-- The text of a state of charge, as `socText` returns it (it never throws,
see `socText_ok`). -/
def socFormatted (soc : Option JSNumber) : String :=
  match socText soc with
  | .ok text => text
  | .error _ => ""

/-- One battery block as the spec words it: the configured name or the default
one, the power after sign normalisation, formatted, and the state of charge,
a placeholder when no `soc` entity is configured. -/
def specBattery (card : Card) (key fallback : String) : Node :=
  let cfg := batteryConfig (card.config.get "entities") key
  .battery ((cfg.get "name").orElse (.string fallback))
    (formatted card (_applySign (reading card (cfg.get "power")) (cfg.get "sign") "bat"))
    (socFormatted (if (cfg.get "soc").truthy then reading card (cfg.get "soc") else none))

/-- The layout as the spec words it: a PV row and a Grid row with the reading
after sign normalisation, a Home row with the reading as it is (absent when no
`home_power` is configured), then the two battery blocks. -/
def specLayout (card : Card) : List Node :=
  let entities := card.config.get "entities"
  [.row "PV" (formatted card
      (_applySign (reading card (entities.get "pv_power")) (entities.get "pv_sign") "pv")),
   .row "Home" (formatted card
      (if (entities.get "home_power").truthy then reading card (entities.get "home_power")
       else none)),
   .row "Grid" (formatted card
      (_applySign (reading card (entities.get "grid_power")) (entities.get "grid_sign") "grid")),
   specBattery card "battery_1" "Battery 1",
   specBattery card "battery_2" "Battery 2"]

/-- The configuration of the end-to-end example:
`{entities: {pv_power: "sensor.pv", pv_sign: "pv_neg_gen", grid_power: "sensor.grid"}}`. -/
def exampleConfig : JSValue :=
  .object [("entities", .object [("pv_power", .string "sensor.pv"),
    ("pv_sign", .string "pv_neg_gen"), ("grid_power", .string "sensor.grid")])]

/-- The host object of the end-to-end example, with the snapshot
`{"sensor.pv": {state: "-500"}, "sensor.grid": {state: "200"}}`. -/
def exampleHass : JSValue :=
  .object [("states", .object [("sensor.pv", .object [("state", .string "-500")]),
    ("sensor.grid", .object [("state", .string "200")])])]

/-- A host object whose snapshot holds the one record `"sensor.pv": {state: "5"}`. -/
def pvHass : JSValue :=
  .object [("states", .object [("sensor.pv", .object [("state", .string "5")])])]

/-- The configuration `{entities: {pv_power: "sensor.pv"}, decimals: <n>}`. -/
def pvConfigWithDecimals (decimals : JSValue) : JSValue :=
  .object [("entities", .object [("pv_power", .string "sensor.pv")]), ("decimals", decimals)]

/-- A host object with a battery whose state of charge is unavailable. -/
def batteryHass : JSValue :=
  .object [("states", .object [("sensor.bat", .object [("state", .string "-120.5")]),
    ("sensor.soc", .object [("state", .string "unavailable")])])]

/-- The configuration `{entities: {battery_1: {power: "sensor.bat", sign:
"bat_pos_charge", soc: "sensor.soc", name: "Cellar"}}, decimals: 0, unit: "VA"}`. -/
def batteryConfigExample : JSValue :=
  .object [("entities", .object [("battery_1", .object [("power", .string "sensor.bat"),
      ("sign", .string "bat_pos_charge"), ("soc", .string "sensor.soc"),
      ("name", .string "Cellar")])]),
    ("decimals", .number (JSNumber.ofNat 0)), ("unit", .string "VA")]

/-- The method `setConfig(config)` as a step on the element: the outcome of the
call and the element after it. A `throw` leaves the element as the statements
before it left it, and in `setConfig` every throw comes before the one
assignment `this.config = config`. -/
def Card.setConfig (card : Card) (config : JSValue) : Except JSError Unit × Card :=
  match config.getProp "entities" with
  | .error err => (.error err, card)
  | .ok entities =>
    if !entities.truthy then
      (.error (.error "Invalid configuration: `entities` required"), card)
    else (.ok (), { card with config := config })

/-- The state-of-charge texts of the battery blocks of a rendered card, in
document order. -/
def socTexts : List Node → List String
  | [] => []
  | .row _ _ :: rest => socTexts rest
  | .battery _ _ soc :: rest => soc :: socTexts rest

/-- A host object with two battery power records. -/
def twoBatteriesHass : JSValue :=
  .object [("states", .object [("sensor.b1", .object [("state", .string "250")]),
    ("sensor.b2", .object [("state", .string "40")])])]

/-- The configuration `{entities: {battery_1: {power: "sensor.b1", name:
"Garage"}, battery_2: {power: "sensor.b2", sign: "bat_pos_charge"}}}`. -/
def twoBatteriesConfig : JSValue :=
  .object [("entities", .object [
    ("battery_1", .object [("power", .string "sensor.b1"), ("name", .string "Garage")]),
    ("battery_2", .object [("power", .string "sensor.b2"), ("sign", .string "bat_pos_charge")])])]

/-- A host object with the power and the state of charge of one battery. -/
def socHass : JSValue :=
  .object [("states", .object [("sensor.bat", .object [("state", .string "10")]),
    ("sensor.soc", .object [("state", .string "80")])])]

/-- The configuration `{entities: {battery_1: {power: "sensor.bat", soc:
"sensor.soc"}}, decimals: <n>, unit: <u>}`. -/
def socConfig (decimals unit : JSValue) : JSValue :=
  .object [("entities", .object [
    ("battery_1", .object [("power", .string "sensor.bat"), ("soc", .string "sensor.soc")])]),
    ("decimals", decimals), ("unit", unit)]

/-- The configuration `{entities: {}}`. -/
def emptyEntitiesConfig : JSValue := .object [("entities", .object [])]

/-- A snapshot whose only record is stored under the key `undefined`, with the
state `"7"`. -/
def strayRecordHass : JSValue :=
  .object [("states", .object [("undefined", .object [("state", .string "7")])])]

/-- The configuration `{entities: {pv_power: "sensor.pv", pv_sign:
"bat_pos_charge", battery_1: {power: "sensor.pv", sign: "pv_neg_gen"}}}`: each
reading carries the invert tag named after another kind of reading. -/
def crossedTagsConfig : JSValue :=
  .object [("entities", .object [("pv_power", .string "sensor.pv"),
    ("pv_sign", .string "bat_pos_charge"),
    ("battery_1", .object [("power", .string "sensor.pv"), ("sign", .string "pv_neg_gen")])])]

/-- A host object whose snapshot holds the one record
`"sensor.pv": {state: "Infinity"}`. -/
def infinityHass : JSValue :=
  .object [("states", .object [("sensor.pv", .object [("state", .string "Infinity")])])]

/-! ## Sign normalisation -/

/-- Unary minus is arithmetic negation on every finite double. -/
theorem JSNumber.toRat?_neg (v : JSNumber) : v.neg.toRat? = v.toRat?.map (fun q => -q) := by
  cases v with
  | nan => rfl
  | inf s => rfl
  | fin s m e => cases s <;> simp [JSNumber.neg, JSNumber.toRat?]

/-- C1: on a present value `_applySign` never fails (it is a total function);
with one of the three invert tags it returns the arithmetic negation of the
value, and with any other tag (unset, an unrecognised string, or something that
is no string) it returns the value unchanged. -/
theorem applySign_present (v : JSNumber) (type : String) :
    (∀ tag ∈ ["pv_neg_gen", "grid_neg_import", "bat_pos_charge"],
        _applySign (some v) (.string tag) type = some v.neg) ∧
    (∀ sign : JSValue,
        (∀ tag ∈ ["pv_neg_gen", "grid_neg_import", "bat_pos_charge"], sign ≠ .string tag) →
        _applySign (some v) sign type = some v) ∧
    _applySign (some v) .undefined type = some v ∧
    v.neg.toRat? = v.toRat?.map (fun q => -q) := by
  refine ⟨?_, ?_, rfl, JSNumber.toRat?_neg v⟩
  · intro tag htag
    simp only [List.mem_cons, List.mem_singleton, List.not_mem_nil, or_false] at htag
    rcases htag with h | h | h <;> subst h <;> rfl
  · intro sign hsign
    simp only [_applySign]
    split
    · exact absurd rfl (hsign "pv_neg_gen" (by simp))
    · exact absurd rfl (hsign "grid_neg_import" (by simp))
    · exact absurd rfl (hsign "bat_pos_charge" (by simp))
    · rfl

/-- C2: for every sign tag (an invert tag, unset, or anything else)
`_applySign` maps the absent value to the absent value: no number and no
error. -/
theorem applySign_absent (sign : JSValue) (type : String) :
    _applySign none sign type = none := rfl

/-! ## Property access and truthiness -/

theorem JSValue.isNullish_of_truthy {v : JSValue} (h : v.truthy = true) : v.isNullish = false := by
  cases v <;> simp_all [JSValue.truthy, JSValue.isNullish]

theorem JSValue.getProp_of_not_nullish {v : JSValue} (key : String) (h : v.isNullish = false) :
    v.getProp key = .ok (v.get key) := by
  simp [JSValue.getProp, h]

theorem JSValue.getProp_object (fields : List (String × JSValue)) (key : String) :
    (JSValue.object fields).getProp key = .ok (JSValue.own fields key) := rfl

/-! ## Formatting -/

/-- C4: whatever the configuration holds (any unit, any decimals, neither, or
no record at all), `_format` maps the absent value to the placeholder `--`. -/
theorem format_absent (card : Card) : _format card none = .ok "--" := by
  cases card with
  | mk hass config => rfl

/-! ## Configuration -/

/-- C7 fails as stated: the configuration record `{entities: false}` has an
`entities` field that is neither missing nor null, and `setConfig` rejects it
with the configuration error. -/
theorem setConfig_rejects_false_entities :
    JSValue.own [("entities", JSValue.bool false)] "entities" = JSValue.bool false ∧
    setConfig Card.initial (.object [("entities", .bool false)]) = .error entitiesRequired := by
  decide

/-- C7 as amended: on a configuration record `setConfig` fails exactly when
`entities` is falsy (missing, null, `false`, a zero, `NaN` or the empty string),
always with the message "Invalid configuration: `entities` required", and
otherwise stores the record without looking at any other field; `{}` and
`{entities: null}` are rejected, `{entities: {}}` is accepted. -/
theorem setConfig_iff_entities_truthy (card : Card) (fields : List (String × JSValue)) :
    (setConfig card (.object fields) = .error entitiesRequired ↔
        (JSValue.own fields "entities").truthy = false) ∧
    (setConfig card (.object fields) = .ok { card with config := .object fields } ↔
        (JSValue.own fields "entities").truthy = true) ∧
    (∀ err, setConfig card (.object fields) = .error err → err = entitiesRequired) ∧
    setConfig card (.object []) = .error entitiesRequired ∧
    setConfig card (.object [("entities", .null)]) = .error entitiesRequired ∧
    setConfig card (.object [("entities", .object [])]) =
      .ok { card with config := .object [("entities", .object [])] } := by
  refine ⟨?_, ?_, ?_, rfl, rfl, rfl⟩
  · cases h : (JSValue.own fields "entities").truthy <;>
      simp [setConfig, JSValue.getProp_object, h, entitiesRequired]
  · cases h : (JSValue.own fields "entities").truthy <;>
      simp [setConfig, JSValue.getProp_object, h]
  · intro err
    cases h : (JSValue.own fields "entities").truthy <;>
      simp [setConfig, JSValue.getProp_object, h, entitiesRequired]
    intro h2
    exact h2.symm

/-! ## Reading the state snapshot -/

/-- Without a snapshot (no host object, or no `states` in it) every lookup is
absent, whatever the identifier. -/
theorem stateValue_without_snapshot (card : Card) (id : JSValue)
    (h : card.hass.isNullish = true ∨ (card.hass.get "states").isNullish = true) :
    _stateValue card id = .ok none := by
  have hund : JSValue.undefined.isNullish = true := rfl
  have hfalsy : JSValue.undefined.truthy = false := rfl
  cases h1 : card.hass.isNullish with
  | true => simp [_stateValue, h1, hund, hfalsy, bind, Except.bind, pure, Except.pure]
  | false =>
    have h2 : (card.hass.get "states").isNullish = true := by
      rcases h with h | h
      · rw [h1] at h
        exact absurd h (by decide)
      · exact h
    simp [_stateValue, h1, h2, hund, hfalsy, JSValue.getProp, bind, Except.bind, pure,
      Except.pure]

/-- When the snapshot holds no record under the key the identifier converts to
(or a falsy one), the lookup is absent. -/
theorem stateValue_without_record (card : Card) (id : JSValue) (key : String)
    (hkey : id.toString = .ok key)
    (h : ((card.hass.get "states").get key).truthy = false) :
    _stateValue card id = .ok none := by
  cases h2 : card.hass.isNullish || (card.hass.get "states").isNullish with
  | true =>
    exact stateValue_without_snapshot card id (by simpa using h2)
  | false =>
    simp only [Bool.or_eq_false_iff] at h2
    simp [_stateValue, h2.1, h2.2, h, hkey, JSValue.getProp, bind, Except.bind, pure,
      Except.pure]

/-- C5 at the failing input: with an absent entity identifier the lookup
`states[entityId]` reads the property named `undefined`, so `_stateValue`
returns the number 42 instead of the absent value; in `render` the unguarded
readings (PV, Grid, both battery powers) show it while the guarded ones (Home,
both states of charge) show the placeholder. -/
theorem stateValue_absent_id_reads_undefined_key :
    _stateValue ⟨snapshotWithUndefinedKey, .object [("entities", .object [])]⟩ .undefined =
      .ok (some (JSNumber.ofNat 42)) ∧
    render ⟨snapshotWithUndefinedKey, .object [("entities", .object [])]⟩ =
      .ok [.row "PV" "42.0 W", .row "Home" "--", .row "Grid" "42.0 W",
           .battery (.string "Battery 1") "42.0 W" "--",
           .battery (.string "Battery 2") "42.0 W" "--"] := by
  decide!

/-! ## `parseFloat` never yields `NaN` from a literal; scanning lemmas -/

theorem JSNumber.isNaN_neg (x : JSNumber) : x.neg.isNaN = x.isNaN := by
  cases x <;> rfl

theorem JSNumber.isNaN_normalize (x : JSNumber) : x.normalize.isNaN = x.isNaN := by
  cases x with
  | nan => rfl
  | inf s => rfl
  | fin s m e =>
    simp only [JSNumber.normalize]
    split <;> rfl

theorem JSNumber.isNaN_ite {c : Prop} [Decidable c] {a b : JSNumber}
    (ha : a.isNaN = false) (hb : b.isNaN = false) : (if c then a else b).isNaN = false := by
  split <;> assumption

theorem JSNumber.isNaN_roundPos (num den : Nat) : (JSNumber.roundPos num den).isNaN = false := by
  unfold JSNumber.roundPos
  exact JSNumber.isNaN_ite rfl
    (JSNumber.isNaN_ite rfl (by rw [JSNumber.isNaN_normalize]; rfl))

theorem JSNumber.isNaN_ofDecimal (s : Bool) (digits : Nat) (exp10 : Int) :
    (JSNumber.ofDecimal s digits exp10).isNaN = false := by
  unfold JSNumber.ofDecimal
  exact JSNumber.isNaN_ite
    (by rw [JSNumber.isNaN_neg]; exact JSNumber.isNaN_ite (JSNumber.isNaN_roundPos _ _)
          (JSNumber.isNaN_roundPos _ _))
    (JSNumber.isNaN_ite (JSNumber.isNaN_roundPos _ _) (JSNumber.isNaN_roundPos _ _))

theorem isNaN_literalValue (neg : Bool) (mag : Magnitude) : (literalValue neg mag).isNaN = false := by
  cases mag with
  | infinity => rfl
  | decimal digits exp10 => exact JSNumber.isNaN_ofDecimal neg digits exp10

theorem isNaN_parseFloatString (s : String) :
    (parseFloatString s).isNaN = true ↔
      scanDecimal (s.toList.dropWhile isStrWhiteSpaceChar) = none := by
  unfold parseFloatString
  cases h : scanDecimal (s.toList.dropWhile isStrWhiteSpaceChar) with
  | none => simp [JSNumber.isNaN]
  | some p =>
    obtain ⟨neg, mag, rest⟩ := p
    simp [isNaN_literalValue]

theorem scanUnsigned_none_of_head (c : Char) (rest : List Char)
    (hd : isDecimalDigit c = false) (h3 : c ≠ '.') (h4 : c ≠ 'I') :
    scanUnsigned (c :: rest) = none := by
  unfold scanUnsigned
  split
  · rename_i heq
    exact absurd (List.cons.inj heq).1 h4
  · simp [spanDigits, hd, h3]

theorem scanDecimal_none_of_head (c : Char) (rest : List Char)
    (hd : isDecimalDigit c = false) (h1 : c ≠ '+') (h2 : c ≠ '-') (h3 : c ≠ '.') (h4 : c ≠ 'I') :
    scanDecimal (c :: rest) = none := by
  unfold scanDecimal
  split
  · rename_i heq
    exact absurd (List.cons.inj heq).1 h1
  · rename_i heq
    exact absurd (List.cons.inj heq).1 h2
  · simp [scanUnsigned_none_of_head c rest hd h3 h4]

theorem spanDigits_append (ds rest : List Char) (hds : ∀ c ∈ ds, isDecimalDigit c = true)
    (hrest : ∀ c, rest.head? = some c → isDecimalDigit c = false) :
    spanDigits (ds ++ rest) = (ds, rest) := by
  induction ds with
  | nil =>
    cases rest with
    | nil => rfl
    | cons c r => simp [spanDigits, hrest c rfl]
  | cons d ds ih =>
    have hd : isDecimalDigit d = true := hds d (List.mem_cons_self d ds)
    have ih2 := ih (fun c hc => hds c (List.mem_cons_of_mem d hc))
    simp [spanDigits, hd, ih2]

theorem isStrWhiteSpaceChar_of_digit (c : Char) (h : isDecimalDigit c = true) :
    isStrWhiteSpaceChar c = false := by
  simp only [isDecimalDigit, Bool.and_eq_true, decide_eq_true_eq] at h
  simp only [isStrWhiteSpaceChar, Bool.or_eq_false_iff, beq_eq_false_iff_ne, ne_eq,
    Bool.and_eq_false_imp, decide_eq_true_eq, decide_eq_false_iff_not]
  omega

theorem scanExponent_of_head (rest : List Char)
    (h : ∀ c, rest.head? = some c → c ≠ 'e' ∧ c ≠ 'E') : scanExponent rest = (0, rest) := by
  cases rest with
  | nil => rfl
  | cons c r => simp [scanExponent, h c rfl]

theorem scanUnsigned_digits (cs ip r1 : List Char) (hspan : spanDigits cs = (ip, r1))
    (hip : ip ≠ []) (hr1 : ∀ c, r1.head? = some c → c ≠ '.' ∧ c ≠ 'e' ∧ c ≠ 'E') :
    scanUnsigned cs = some (.decimal (digitsValue ip) 0, r1) := by
  unfold scanUnsigned
  split
  · rename_i rest
    simp [spanDigits, isDecimalDigit] at hspan
    exact absurd hspan.1 hip
  · rw [hspan]
    dsimp only
    split
    · rename_i r2
      exact absurd rfl (hr1 '.' rfl).1
    · have hexp := scanExponent_of_head r1 (fun c hc => (hr1 c hc).2)
      simp [hip, hexp]

theorem scanDecimal_digits (ds rest : List Char) (hne : ds ≠ [])
    (hds : ∀ c ∈ ds, isDecimalDigit c = true)
    (hrest : ∀ c, rest.head? = some c →
      isDecimalDigit c = false ∧ c ≠ '.' ∧ c ≠ 'e' ∧ c ≠ 'E') :
    scanDecimal (ds ++ rest) = some (false, .decimal (digitsValue ds) 0, rest) := by
  have hspan := spanDigits_append ds rest hds (fun c hc => (hrest c hc).1)
  have hun := scanUnsigned_digits (ds ++ rest) ds rest hspan hne (fun c hc => (hrest c hc).2)
  cases ds with
  | nil => exact absurd rfl hne
  | cons d ds =>
    have hd : isDecimalDigit d = true := hds d (List.mem_cons_self d ds)
    unfold scanDecimal
    split
    · rename_i r heq
      rw [(List.cons.inj heq).1] at hd
      exact absurd hd (by decide)
    · rename_i r heq
      rw [(List.cons.inj heq).1] at hd
      exact absurd hd (by decide)
    · rw [hun]; rfl

/-- A record whose `state` is the string `s`, found under a string identifier:
`_stateValue` is `parseFloat` of `s`, with `NaN` turned into the absent value. -/
theorem stateValue_of_record (card : Card) (hf sf rf : List (String × JSValue)) (id s : String)
    (hhass : card.hass = .object hf) (hstates : JSValue.own hf "states" = .object sf)
    (hrec : JSValue.own sf id = .object rf) (hstate : JSValue.own rf "state" = .string s) :
    _stateValue card (.string id) =
      .ok (if (parseFloatString s).isNaN then none else some (parseFloatString s)) := by
  simp [_stateValue, hhass, JSValue.isNullish, JSValue.getProp, JSValue.get, hstates, hrec,
    JSValue.toString, JSValue.truthy, hstate, parseFloat, bind, Except.bind, pure, Except.pure]

/-- C6 fails as stated: the state `"Infinity"` is text without a leading
numeric character (its first character `I` is no digit, sign or point), yet
`parseFloat` reads it as the number `Infinity`, `isNaN` lets it pass, and
`_stateValue` returns that number; `render` shows `Infinity W`. -/
theorem stateValue_reads_infinity :
    isDecimalDigit 'I' = false ∧
    _stateValue ⟨infinityHass, .object []⟩ (.string "sensor.pv") = .ok (some (.inf false)) ∧
    (render ⟨infinityHass, pvConfigWithDecimals .undefined⟩).map (fun nodes => nodes.head?) =
      .ok (some (.row "PV" "Infinity W")) := by
  decide!

/-- C6 as amended: when the snapshot holds a record for the identifier and the
record's `state` is the string `s`, `_stateValue` returns without error the
number that `parseFloat` reads from the leading numeric prefix of `s`: after
leading white space, the longest prefix that is a decimal literal (an optional
sign, then digits with an optional point and exponent, or the word
`Infinity`). It returns the absent value exactly when `s` has no such prefix:
for the empty string, and for any text whose first character after the white
space is neither a digit, a sign, a point nor the `I` of `Infinity`. A text
that starts with decimal digits followed by something that continues no number
yields the double for those digits; `"1500"` yields 1500, `"unavailable"`
yields absent, and a text that starts with `Infinity` yields the number
`Infinity`. -/
theorem stateValue_record (card : Card) (hf sf rf : List (String × JSValue)) (id s : String)
    (hhass : card.hass = .object hf) (hstates : JSValue.own hf "states" = .object sf)
    (hrec : JSValue.own sf id = .object rf) (hstate : JSValue.own rf "state" = .string s) :
    _stateValue card (.string id) =
        .ok (if (parseFloatString s).isNaN then none else some (parseFloatString s)) ∧
    ((parseFloatString s).isNaN = true ↔
        scanDecimal (s.toList.dropWhile isStrWhiteSpaceChar) = none) ∧
    (s = "" → _stateValue card (.string id) = .ok none) ∧
    (∀ c rest, s.toList.dropWhile isStrWhiteSpaceChar = c :: rest →
        isDecimalDigit c = false → c ≠ '+' → c ≠ '-' → c ≠ '.' → c ≠ 'I' →
        _stateValue card (.string id) = .ok none) ∧
    (∀ ds rest, s.toList = ds ++ rest → ds ≠ [] → (∀ c ∈ ds, isDecimalDigit c = true) →
        (∀ c, rest.head? = some c → isDecimalDigit c = false ∧ c ≠ '.' ∧ c ≠ 'e' ∧ c ≠ 'E') →
        _stateValue card (.string id) = .ok (some (JSNumber.ofNat (digitsValue ds)))) ∧
    (s = "1500" → _stateValue card (.string id) = .ok (some (JSNumber.ofNat 1500))) ∧
    (s = "unavailable" → _stateValue card (.string id) = .ok none) ∧
    (_stateValue card (.string id) = .ok none ↔
        scanDecimal (s.toList.dropWhile isStrWhiteSpaceChar) = none) ∧
    (∀ rest, s.toList.dropWhile isStrWhiteSpaceChar =
          'I' :: 'n' :: 'f' :: 'i' :: 'n' :: 'i' :: 't' :: 'y' :: rest →
        _stateValue card (.string id) = .ok (some (.inf false))) ∧
    (s = "Infinity" → _stateValue card (.string id) = .ok (some (.inf false))) ∧
    (s = "-Infinity" → _stateValue card (.string id) = .ok (some (.inf true))) := by
  have hval := stateValue_of_record card hf sf rf id s hhass hstates hrec hstate
  refine ⟨hval, isNaN_parseFloatString s, ?_, ?_, ?_, ?_, ?_, ?_, ?_, ?_, ?_⟩
  · intro hs
    subst hs
    rw [hval]
    rfl
  · intro c rest htrim hd h1 h2 h3 h4
    have hnan : (parseFloatString s).isNaN = true :=
      (isNaN_parseFloatString s).2 (by rw [htrim]; exact scanDecimal_none_of_head c rest hd h1 h2 h3 h4)
    rw [hval, hnan]
    rfl
  · intro ds rest hs hne hds hrest
    have htrim : s.toList.dropWhile isStrWhiteSpaceChar = ds ++ rest := by
      rw [hs]
      cases ds with
      | nil => exact absurd rfl hne
      | cons d ds =>
        have hd := isStrWhiteSpaceChar_of_digit d (hds d (List.mem_cons_self d ds))
        simp [List.dropWhile, hd]
    have hparse : parseFloatString s = JSNumber.ofNat (digitsValue ds) := by
      unfold parseFloatString
      rw [htrim, scanDecimal_digits ds rest hne hds hrest]
      simp [literalValue, JSNumber.ofDecimal, JSNumber.ofNat]
    have hnan : (JSNumber.ofNat (digitsValue ds)).isNaN = false := JSNumber.isNaN_roundPos _ _
    rw [hval, hparse, hnan]
    rfl
  · intro hs
    subst hs
    rw [hval]
    decide
  · intro hs
    subst hs
    rw [hval]
    decide
  · rw [hval, ← isNaN_parseFloatString s]
    cases (parseFloatString s).isNaN <;> simp
  · intro rest htrim
    have hparse : parseFloatString s = .inf false := by
      unfold parseFloatString
      rw [htrim]
      rfl
    rw [hval, hparse]
    rfl
  · intro hs
    subst hs
    rw [hval]
    decide
  · intro hs
    subst hs
    rw [hval]
    decide

/-- C6 at the snapshot `{"sensor.pv": {state: "1500"}}`. -/
theorem stateValue_record_witness :
    _stateValue ⟨.object [("states", .object [("sensor.pv", .object [("state", .string "1500")])])],
        .object []⟩ (.string "sensor.pv") = .ok (some (JSNumber.ofNat 1500)) :=
  (stateValue_record
    ⟨.object [("states", .object [("sensor.pv", .object [("state", .string "1500")])])], .object []⟩
    [("states", .object [("sensor.pv", .object [("state", .string "1500")])])]
    [("sensor.pv", .object [("state", .string "1500")])]
    [("state", .string "1500")] "sensor.pv" "1500" rfl rfl rfl rfl).2.2.2.2.2.1 rfl

/-! ## Decimal digits -/

namespace JSNumber

theorem length_zeroPad (w x : Nat) : (zeroPad w x).length = w := by
  induction w generalizing x with
  | zero => rfl
  | succ w ih => simp [zeroPad, ih]

theorem zeroPad_zero_value (w : Nat) : zeroPad w 0 = List.replicate w '0' := by
  induction w with
  | zero => rfl
  | succ w ih =>
    rw [zeroPad, Nat.zero_div, ih, List.replicate_succ']
    rfl

/-- Splitting a padded number at its last `f` digits. -/
theorem zeroPad_add (a f x : Nat) :
    zeroPad (a + f) x = zeroPad a (x / 10 ^ f) ++ zeroPad f (x % 10 ^ f) := by
  induction f generalizing x with
  | zero => simp [zeroPad, Nat.mod_one]
  | succ f ih =>
    have h1 : x / 10 / 10 ^ f = x / 10 ^ (f + 1) := by
      rw [Nat.div_div_eq_div_mul, Nat.pow_succ, Nat.mul_comm]
    have h2 : x % 10 ^ (f + 1) / 10 = x / 10 % 10 ^ f := by
      rw [Nat.pow_succ, Nat.mul_comm, Nat.mod_mul_right_div_self]
    have h3 : x % 10 ^ (f + 1) % 10 = x % 10 :=
      Nat.mod_mod_of_dvd x (Dvd.intro_left (10 ^ f) rfl)
    rw [← Nat.add_assoc, zeroPad, ih, zeroPad, h1, h2, h3, List.append_assoc]

theorem zeroPad_extend (j w x : Nat) (h : x < 10 ^ w) :
    zeroPad (j + w) x = List.replicate j '0' ++ zeroPad w x := by
  rw [zeroPad_add, Nat.div_eq_of_lt h, Nat.mod_eq_of_lt h, zeroPad_zero_value]

theorem decimalLength_pos (fuel n : Nat) : 1 ≤ decimalLength fuel n := by
  cases fuel with
  | zero => simp [decimalLength]
  | succ fuel =>
    simp only [decimalLength]
    split <;> omega

theorem lt_pow_decimalLength (fuel n : Nat) (h : n ≤ fuel) : n < 10 ^ decimalLength fuel n := by
  induction fuel generalizing n with
  | zero =>
    have : n = 0 := by omega
    subst this
    simp [decimalLength]
  | succ fuel ih =>
    simp only [decimalLength]
    split
    · simpa using ‹n < 10›
    · have hq : n / 10 ≤ fuel := by omega
      have := ih (n / 10) hq
      rw [Nat.pow_succ]
      omega

theorem pow_decimalLength_le (fuel n : Nat) (h : n ≤ fuel) (hn : n ≠ 0) :
    10 ^ (decimalLength fuel n - 1) ≤ n := by
  induction fuel generalizing n with
  | zero => omega
  | succ fuel ih =>
    simp only [decimalLength]
    split
    · simp; omega
    · have hq : n / 10 ≤ fuel := by omega
      have hq0 : n / 10 ≠ 0 := by omega
      have := ih (n / 10) hq hq0
      have hpos := decimalLength_pos fuel (n / 10)
      have hk : decimalLength fuel (n / 10) + 1 - 1 = (decimalLength fuel (n / 10) - 1) + 1 := by
        omega
      rw [hk, Nat.pow_succ]
      omega

/-- The digit count is determined by the decade the number lies in. -/
theorem decimalLength_eq (n k : Nat) (hk : 1 ≤ k) (hlo : 10 ^ (k - 1) ≤ n) (hhi : n < 10 ^ k) :
    decimalLength n n = k := by
  have hn : n ≠ 0 := by
    have : 0 < 10 ^ (k - 1) := Nat.pow_pos (by decide)
    omega
  have h1 := lt_pow_decimalLength n n (Nat.le_refl n)
  have h2 := pow_decimalLength_le n n (Nat.le_refl n) hn
  have h3 := decimalLength_pos n n
  by_contra hne
  rcases Nat.lt_or_gt_of_ne hne with hlt | hgt
  · have : 10 ^ decimalLength n n ≤ 10 ^ (k - 1) :=
      Nat.pow_le_pow_right (by decide) (by omega)
    omega
  · have : 10 ^ k ≤ 10 ^ (decimalLength n n - 1) :=
      Nat.pow_le_pow_right (by decide) (by omega)
    omega

/-- The text `toFixed` builds from the rounded integer `n`: the padded digit
string cut before its last `f` digits is the integer part `n / 10 ^ f` and the
`f` digits of `n % 10 ^ f`. -/
theorem padded_split (n f : Nat) :
    let padded := List.replicate (f + 1 - (decimalDigits n).length) '0' ++ decimalDigits n
    padded.take (padded.length - f) = decimalDigits (n / 10 ^ f) ∧
    padded.drop (padded.length - f) = zeroPad f (n % 10 ^ f) := by
  intro padded
  have hk1 := decimalLength_pos n n
  have hlt := lt_pow_decimalLength n n (Nat.le_refl n)
  have hlen : (decimalDigits n).length = decimalLength n n := length_zeroPad _ _
  have hpad : padded = zeroPad ((f + 1 - decimalLength n n) + decimalLength n n) n := by
    rw [zeroPad_extend _ _ _ hlt]
    show List.replicate (f + 1 - (decimalDigits n).length) '0' ++ decimalDigits n = _
    rw [hlen]
    rfl
  have hW : (f + 1 - decimalLength n n) + decimalLength n n =
      ((f + 1 - decimalLength n n) + decimalLength n n - f) + f := by omega
  have hsplit : padded =
      zeroPad ((f + 1 - decimalLength n n) + decimalLength n n - f) (n / 10 ^ f) ++
        zeroPad f (n % 10 ^ f) := by
    rw [hpad, ← zeroPad_add, ← hW]
  have hplen : padded.length - f = (f + 1 - decimalLength n n) + decimalLength n n - f := by
    rw [hpad, length_zeroPad]
  have hint : zeroPad ((f + 1 - decimalLength n n) + decimalLength n n - f) (n / 10 ^ f) =
      decimalDigits (n / 10 ^ f) := by
    unfold decimalDigits
    congr 1
    by_cases hkf : decimalLength n n ≤ f
    · have hpow : 10 ^ decimalLength n n ≤ 10 ^ f := Nat.pow_le_pow_right (by decide) hkf
      have hz : n / 10 ^ f = 0 := Nat.div_eq_of_lt (by omega)
      rw [hz]
      have : decimalLength 0 0 = 1 := rfl
      omega
    · by_cases hn : n = 0
      · subst hn
        have h0 : decimalLength 0 0 = 1 := rfl
        rw [Nat.zero_div, h0]
        omega
      have hlo := pow_decimalLength_le n n (Nat.le_refl n) hn
      have hpf : 0 < 10 ^ f := Nat.pow_pos (by decide)
      have e1 : 10 ^ (decimalLength n n - 1) = 10 ^ (decimalLength n n - f - 1) * 10 ^ f := by
        rw [← Nat.pow_add]
        congr 1
        omega
      have e2 : 10 ^ decimalLength n n = 10 ^ (decimalLength n n - f) * 10 ^ f := by
        rw [← Nat.pow_add]
        congr 1
        omega
      have hq := decimalLength_eq (n / 10 ^ f) (decimalLength n n - f) (by omega)
        ((Nat.le_div_iff_mul_le hpf).2 (by rw [← e1]; exact hlo))
        ((Nat.div_lt_iff_lt_mul hpf).2 (by rw [← e2]; exact hlt))
      omega
  refine ⟨?_, ?_⟩
  · rw [hplen, hsplit, List.take_left' (length_zeroPad _ _)]
    exact hint
  · rw [hplen, hsplit, List.drop_left' (length_zeroPad _ _)]

end JSNumber

/-! ## Fixed notation -/

theorem JSNumber.frac_den_pos (m : Nat) (e : Int) : 0 < (JSNumber.frac m e).2 := by
  unfold JSNumber.frac
  split
  · exact Nat.one_pos
  · exact Nat.pow_pos (by decide)

/-- The fraction of `frac` is the magnitude of the double. -/
theorem JSNumber.toRat?_eq_frac (s : Bool) (m : Nat) (e : Int) :
    (JSNumber.fin s m e).toRat? =
      some ((if s then -1 else 1) * (((JSNumber.frac m e).1 : ℚ) / ((JSNumber.frac m e).2 : ℚ))) := by
  by_cases h : 0 ≤ e
  · have he : e = (e.toNat : Int) := (Int.toNat_of_nonneg h).symm
    have hz : (2 : ℚ) ^ e = 2 ^ e.toNat := by
      conv_lhs => rw [he]
      exact zpow_natCast 2 e.toNat
    simp only [JSNumber.toRat?, JSNumber.frac, h, if_true, Nat.cast_mul, Nat.cast_pow,
      Nat.cast_ofNat, Nat.cast_one, div_one, hz, mul_assoc]
  · have he : e = -((-e).toNat : Int) := by omega
    have hz : (2 : ℚ) ^ e = (2 ^ (-e).toNat)⁻¹ := by
      conv_lhs => rw [he]
      rw [zpow_neg, zpow_natCast]
    simp only [JSNumber.toRat?, JSNumber.frac, h, if_false, Nat.cast_pow, Nat.cast_ofNat, hz,
      mul_assoc, div_eq_mul_inv]

/-- The integer `toFixed` writes: `num / den * 10 ^ d` rounded to the nearest
integer, a half rounding up. -/
theorem roundedDigits_eq_floor (num den d : Nat) (hden : 0 < den) :
    (2 * num * 10 ^ d + den) / (2 * den) = ⌊((num : ℚ) / (den : ℚ)) * 10 ^ d + 1 / 2⌋₊ := by
  have hq : ((num : ℚ) / (den : ℚ)) * 10 ^ d + 1 / 2 =
      ((2 * num * 10 ^ d + den : Nat) : ℚ) / ((2 * den : Nat) : ℚ) := by
    have hd : (den : ℚ) ≠ 0 := by exact_mod_cast Nat.pos_iff_ne_zero.mp hden
    push_cast
    field_simp
    ring
  rw [hq, Nat.floor_div_eq_div]

theorem toFixed_eq_fixedText (s : Bool) (m : Nat) (e : Int) (fractionDigits : JSValue) (d : Nat)
    (hf : fractionDigits.toIntegerOrInfinity = .ok (some (d : Int))) (hd : d ≤ 100)
    (hmag : (JSNumber.frac m e).1 < 10 ^ 21 * (JSNumber.frac m e).2) :
    (JSNumber.fin s m e).toFixed fractionDigits = .ok (fixedText s m e d) := by
  have hrange : ¬((d : Int) < 0 ∨ (100 : Int) < (d : Int)) := by omega
  have hmag2 : ¬(10 ^ 21 * (JSNumber.frac m e).2 ≤ (JSNumber.frac m e).1) := by omega
  simp only [JSNumber.toFixed, hf, hrange, if_false, hmag2, Int.toNat_ofNat, fixedText]
  by_cases hd0 : d = 0
  · subst hd0
    simp
  · have hsplit := JSNumber.padded_split
      ((2 * (JSNumber.frac m e).1 * 10 ^ d + (JSNumber.frac m e).2) / (2 * (JSNumber.frac m e).2)) d
    simp only [hd0, if_false]
    rw [hsplit.1, hsplit.2]

/-- With a configuration record, `_format` on a present value is `toFixed` of
the configured decimals, a space and the text of the configured unit. -/
theorem format_some (card : Card) (v : JSNumber) (h : card.config.isNullish = false) :
    _format card (some v) =
      (match v.toFixed (configuredDecimals card.config) with
       | .error err => .error err
       | .ok digits =>
         match (configuredUnit card.config).toString with
         | .error err => .error err
         | .ok unitText => .ok (digits ++ " " ++ unitText)) := by
  simp only [_format, JSValue.getProp, h, configuredDecimals, configuredUnit, bind, Except.bind,
    pure, Except.pure, Bool.false_eq_true, if_false]
  cases v.toFixed (if (card.config.get "decimals").isNullish = true then
      JSValue.number (JSNumber.ofNat 1) else card.config.get "decimals") with
  | error err => rfl
  | ok digits =>
    cases (if (card.config.get "unit").isNullish = true then JSValue.string "W"
      else card.config.get "unit").toString <;> rfl

/-- C3 fails as stated: with `decimals: 101` the configuration is a record
like any other, yet `_format` of the present value 5 is no string at all,
`toFixed` throws a `RangeError`. -/
theorem format_throws_on_decimals_101 :
    _format ⟨.undefined, .object [("entities", .object []), ("decimals", .number (JSNumber.ofNat 101))]⟩
      (some (JSNumber.ofNat 5)) = .error .rangeError := by
  decide!

/-- C3 as amended: for a present finite value of magnitude below `10 ^ 21` and
a configuration record whose `decimals` (1 when unset or null) converts to an
integer `d` in `0 .. 100` and whose `unit` (`W` when unset or null) has the text
`u`, `_format` returns the value written with `d` decimal places, one space,
and `u`; 1234.5 gives `1234.50 W` with `decimals = 2`, `unit = "W"`, and
`1234.5 W` with the defaults. -/
theorem format_present (card : Card) (s : Bool) (m : Nat) (e : Int) (d : Nat) (u : String)
    (hcfg : card.config.isNullish = false)
    (hdec : (configuredDecimals card.config).toIntegerOrInfinity = .ok (some (d : Int)))
    (hd : d ≤ 100)
    (hunit : (configuredUnit card.config).toString = .ok u)
    (hmag : (JSNumber.frac m e).1 < 10 ^ 21 * (JSNumber.frac m e).2) :
    _format card (some (.fin s m e)) = .ok (fixedText s m e d ++ " " ++ u) ∧
    _format ⟨.undefined, .object [("decimals", .number (JSNumber.ofNat 2)), ("unit", .string "W")]⟩
      (some (JSNumber.ofDecimal false 12345 (-1))) = .ok "1234.50 W" ∧
    _format ⟨.undefined, .object []⟩ (some (JSNumber.ofDecimal false 12345 (-1))) =
      .ok "1234.5 W" := by
  refine ⟨?_, by decide!, by decide!⟩
  rw [format_some card _ hcfg, toFixed_eq_fixedText s m e _ d hdec hd hmag, hunit]

/-- C3 at the value 1234.5 (`2469 * 2 ^ (-1)`) with `{decimals: 2, unit: "W"}`:
the fixed text is `1234.50`. -/
theorem format_present_witness :
    _format ⟨.undefined, .object [("decimals", .number (JSNumber.ofNat 2)), ("unit", .string "W")]⟩
      (some (.fin false 2469 (-1))) = .ok "1234.50 W" ∧
    fixedText false 2469 (-1) 2 = "1234.50" :=
  ⟨(format_present
      ⟨.undefined, .object [("decimals", .number (JSNumber.ofNat 2)), ("unit", .string "W")]⟩
      false 2469 (-1) 2 "W" (by decide) (by decide!) (by decide) (by decide) (by decide)).1,
   by decide!⟩

/-! ## Reads and formatting that cannot fail -/

theorem JSValue.toString_of_printable {v : JSValue} (h : v.printable = true) :
    ∃ s, v.toString = .ok s := by
  cases v with
  | undefined => exact ⟨_, rfl⟩
  | null => exact ⟨_, rfl⟩
  | bool b => cases b <;> exact ⟨_, rfl⟩
  | number n => exact ⟨_, rfl⟩
  | string s => exact ⟨_, rfl⟩
  | object fields =>
    simp only [JSValue.printable, Bool.not_eq_true'] at h
    exact ⟨"[object Object]", by simp [JSValue.toString, h]⟩

theorem JSValue.get_of_nullish {v : JSValue} (key : String) (h : v.isNullish = true) :
    v.get key = .undefined := by
  cases v <;> simp_all [JSValue.isNullish, JSValue.get]

/-- With printable data `_stateValue` does not throw. -/
theorem stateValue_ok (card : Card) (id : JSValue) (hid : id.printable = true)
    (hst : ∀ key : String, (((card.hass.get "states").get key).get "state").printable = true) :
    _stateValue card id = .ok (reading card id) := by
  have hex : ∃ r, _stateValue card id = .ok r := by
    obtain ⟨key, hkey⟩ := JSValue.toString_of_printable hid
    obtain ⟨text, htext⟩ := JSValue.toString_of_printable (hst key)
    have hund : JSValue.undefined.isNullish = true := rfl
    have hfalsy : JSValue.undefined.truthy = false := rfl
    cases h1 : card.hass.isNullish with
    | true =>
      simp [_stateValue, h1, hund, hfalsy, bind, Except.bind, pure, Except.pure]
    | false =>
      cases h2 : (card.hass.get "states").isNullish with
      | true =>
        simp [_stateValue, h1, h2, hund, hfalsy, JSValue.getProp, bind, Except.bind, pure,
          Except.pure]
      | false =>
        cases h3 : ((card.hass.get "states").get key).truthy with
        | false =>
          simp [_stateValue, h1, h2, h3, hkey, JSValue.getProp, bind, Except.bind, pure,
            Except.pure]
        | true =>
          have h4 := JSValue.isNullish_of_truthy h3
          simp [_stateValue, h1, h2, h3, h4, hkey, htext, JSValue.getProp, parseFloat, bind,
            Except.bind, pure, Except.pure]
  obtain ⟨r, hr⟩ := hex
  simp [reading, hr]

/-- With a digit count in `0 .. 100`, `toFixed` does not throw. -/
theorem toFixed_ok (x : JSNumber) (fractionDigits : JSValue) (d : Int)
    (hf : fractionDigits.toIntegerOrInfinity = .ok (some d)) (h0 : 0 ≤ d) (h100 : d ≤ 100) :
    ∃ s, x.toFixed fractionDigits = .ok s := by
  have hrange : ¬(d < 0 ∨ 100 < d) := by omega
  cases x with
  | nan => exact ⟨JSNumber.nan.toString, by simp [JSNumber.toFixed, hf, hrange]⟩
  | inf neg => exact ⟨(JSNumber.inf neg).toString, by simp [JSNumber.toFixed, hf, hrange]⟩
  | fin s m e =>
    simp only [JSNumber.toFixed, hf, hrange, if_false]
    split
    · exact ⟨_, rfl⟩
    · split <;> exact ⟨_, rfl⟩

theorem decimalsInRange_iff (config : JSValue) :
    decimalsInRange config = true ↔
      ∃ d : Int, (configuredDecimals config).toIntegerOrInfinity = .ok (some d) ∧ 0 ≤ d ∧ d ≤ 100 := by
  unfold decimalsInRange
  cases h : (configuredDecimals config).toIntegerOrInfinity with
  | error err => simp
  | ok r =>
    cases r with
    | none => simp
    | some d => simp

/-- With a configuration record, decimals in range and a printable unit,
`_format` does not throw. -/
theorem format_ok (card : Card) (value : Option JSNumber) (hcfg : card.config.isNullish = false)
    (hdec : decimalsInRange card.config = true)
    (hunit : (configuredUnit card.config).printable = true) :
    _format card value = .ok (formatted card value) := by
  have hex : ∃ s, _format card value = .ok s := by
    cases value with
    | none => exact ⟨"--", rfl⟩
    | some v =>
      obtain ⟨d, hd, h0, h100⟩ := (decimalsInRange_iff card.config).1 hdec
      obtain ⟨digits, hdigits⟩ := toFixed_ok v _ d hd h0 h100
      obtain ⟨u, hu⟩ := JSValue.toString_of_printable hunit
      exact ⟨_, by rw [format_some card v hcfg, hdigits, hu]⟩
  obtain ⟨s, hs⟩ := hex
  simp [formatted, hs]

/-- The state-of-charge text never throws: its digit count is the constant 1. -/
theorem socText_ok (soc : Option JSNumber) : socText soc = .ok (socFormatted soc) := by
  have hex : ∃ s, socText soc = .ok s := by
    cases soc with
    | none => exact ⟨_, rfl⟩
    | some v =>
      have h1 : (JSValue.number (JSNumber.ofNat 1)).toIntegerOrInfinity = .ok (some 1) := by
        decide!
      obtain ⟨digits, hdigits⟩ := toFixed_ok v _ 1 h1 (by decide) (by decide)
      exact ⟨digits ++ " %", by simp [socText, hdigits, bind, Except.bind, pure, Except.pure]⟩
  obtain ⟨s, hs⟩ := hex
  simp [socFormatted, hs]

theorem batteryConfig_not_nullish (entities : JSValue) (key : String) :
    (batteryConfig entities key).isNullish = false := by
  unfold batteryConfig JSValue.orElse
  split
  · exact JSValue.isNullish_of_truthy ‹_›
  · rfl

/-- What an accepted configuration looks like: it is the stored one, it is no
`undefined` or `null`, and its `entities` is truthy. -/
theorem setConfig_ok (card0 card : Card) (config : JSValue)
    (h : setConfig card0 config = .ok card) :
    card.config = config ∧ card.hass = card0.hass ∧ config.isNullish = false ∧
      (config.get "entities").truthy = true := by
  unfold setConfig JSValue.getProp at h
  cases hn : config.isNullish with
  | true => simp [hn] at h
  | false =>
    cases ht : (config.get "entities").truthy with
    | false => simp [hn, ht] at h
    | true =>
      simp [hn, ht] at h
      subst h
      exact ⟨rfl, rfl, rfl, rfl⟩

/-! ## The layout -/

/-- With an accepted configuration, a present snapshot and well-formed data,
`render` returns the layout of the spec. -/
theorem render_eq_specLayout (card : Card) (hcfg : card.config.isNullish = false)
    (hent : (card.config.get "entities").truthy = true) (hhass : card.hass.truthy = true)
    (hwf : WellFormed card) : render card = .ok (specLayout card) := by
  have hentn := JSValue.isNullish_of_truthy hent
  have hb1 := batteryConfig_not_nullish (card.config.get "entities") "battery_1"
  have hb2 := batteryConfig_not_nullish (card.config.get "entities") "battery_2"
  have hread : ∀ id ∈ entityIds (card.config.get "entities"),
      _stateValue card id = .ok (reading card id) :=
    fun id hid => stateValue_ok card id (hwf.ids id hid) hwf.states
  have hfmt := fun v => format_ok card v hcfg hwf.decimals hwf.unit
  have r1 := hread _ (by simp [entityIds] : (card.config.get "entities").get "pv_power" ∈ _)
  have r2 := hread _ (by simp [entityIds] : (card.config.get "entities").get "home_power" ∈ _)
  have r3 := hread _ (by simp [entityIds] : (card.config.get "entities").get "grid_power" ∈ _)
  have r4 := hread _ (by simp [entityIds] :
    (batteryConfig (card.config.get "entities") "battery_1").get "power" ∈ _)
  have r5 := hread _ (by simp [entityIds] :
    (batteryConfig (card.config.get "entities") "battery_1").get "soc" ∈ _)
  have r6 := hread _ (by simp [entityIds] :
    (batteryConfig (card.config.get "entities") "battery_2").get "power" ∈ _)
  have r7 := hread _ (by simp [entityIds] :
    (batteryConfig (card.config.get "entities") "battery_2").get "soc" ∈ _)
  unfold batteryConfig at hb1 hb2 r4 r5 r6 r7
  cases c1 : ((card.config.get "entities").get "home_power").truthy <;>
  cases c2 : (((card.config.get "entities").get "battery_1").orElse (.object [])).get "soc" |>.truthy <;>
  cases c3 : (((card.config.get "entities").get "battery_2").orElse (.object [])).get "soc" |>.truthy <;>
  simp [render, specLayout, specBattery, batteryConfig, hhass, hcfg, hentn, hb1, hb2,
    JSValue.getProp, r1, r2, r3, r4, r5, r6, r7, hfmt, socText_ok, c1, c2, c3, bind, Except.bind,
    pure, Except.pure]

/-! ## Rendering -/

theorem exampleCard_wellFormed : WellFormed ⟨exampleHass, exampleConfig⟩ where
  decimals := by decide!
  unit := by decide
  ids := by decide
  states := by
    intro key
    simp only [exampleHass, JSValue.get, JSValue.own, if_true]
    split_ifs <;> rfl

theorem batteryCard_wellFormed : WellFormed ⟨batteryHass, batteryConfigExample⟩ where
  decimals := by decide!
  unit := by decide
  ids := by decide
  states := by
    intro key
    simp only [batteryHass, JSValue.get, JSValue.own, if_true]
    split_ifs <;> rfl

/-- C8 fails as stated: `setConfig` accepts `{entities: {pv_power: "sensor.pv"},
decimals: -1}`, the snapshot is present, and `render` produces no rows: it
throws the `RangeError` of `toFixed`. -/
theorem render_throws_on_negative_decimals :
    setConfig ⟨pvHass, .object []⟩ (pvConfigWithDecimals (.number (JSNumber.ofInt (-1)))) =
      .ok ⟨pvHass, pvConfigWithDecimals (.number (JSNumber.ofInt (-1)))⟩ ∧
    pvHass.truthy = true ∧
    render ⟨pvHass, pvConfigWithDecimals (.number (JSNumber.ofInt (-1)))⟩ = .error .rangeError := by
  decide!

/-- C8 as amended: for a configuration accepted by `setConfig`, a present
snapshot and well-formed data (`decimals` in `0 .. 100`; unit, identifiers and
state fields convertible to text), `render` produces, in this order, the row
`PV` with `_format(_applySign(reading of pv_power, pv_sign))`, the row `Home`
with `_format` of the `home_power` reading, not sign-normalised, the row `Grid`
with `_format(_applySign(reading of grid_power, grid_sign))`, and the two
battery blocks; no read and no formatting fails on the way. In the end-to-end
example the rows show `500.0 W`, `--` and `200.0 W`. -/
theorem render_layout (card0 card : Card) (config : JSValue)
    (hacc : setConfig card0 config = .ok card) (hhass : card.hass.truthy = true)
    (hwf : WellFormed card) :
    render card = .ok
      [.row "PV" (formatted card (_applySign (reading card ((config.get "entities").get "pv_power"))
          ((config.get "entities").get "pv_sign") "pv")),
       .row "Home" (formatted card
          (if ((config.get "entities").get "home_power").truthy
           then reading card ((config.get "entities").get "home_power") else none)),
       .row "Grid" (formatted card
          (_applySign (reading card ((config.get "entities").get "grid_power"))
            ((config.get "entities").get "grid_sign") "grid")),
       specBattery card "battery_1" "Battery 1",
       specBattery card "battery_2" "Battery 2"] ∧
    (∀ id ∈ entityIds (config.get "entities"), _stateValue card id = .ok (reading card id)) ∧
    (∀ value, _format card value = .ok (formatted card value)) ∧
    render ⟨exampleHass, exampleConfig⟩ = .ok
      [.row "PV" "500.0 W", .row "Home" "--", .row "Grid" "200.0 W",
       .battery (.string "Battery 1") "--" "--", .battery (.string "Battery 2") "--" "--"] := by
  obtain ⟨hc, -, hnn, hent⟩ := setConfig_ok card0 card config hacc
  subst hc
  refine ⟨?_, ?_, ?_, by decide!⟩
  · rw [render_eq_specLayout card hnn hent hhass hwf]
    rfl
  · intro id hid
    exact stateValue_ok card id (hwf.ids id hid) hwf.states
  · intro value
    exact format_ok card value hnn hwf.decimals hwf.unit

/-- C8 at the end-to-end example: the rows and blocks `render` returns. -/
theorem render_layout_witness :
    render ⟨exampleHass, exampleConfig⟩ = .ok
      [.row "PV" (formatted ⟨exampleHass, exampleConfig⟩
          (_applySign (reading ⟨exampleHass, exampleConfig⟩
            ((exampleConfig.get "entities").get "pv_power"))
            ((exampleConfig.get "entities").get "pv_sign") "pv")),
       .row "Home" (formatted ⟨exampleHass, exampleConfig⟩
          (if ((exampleConfig.get "entities").get "home_power").truthy
           then reading ⟨exampleHass, exampleConfig⟩
             ((exampleConfig.get "entities").get "home_power") else none)),
       .row "Grid" (formatted ⟨exampleHass, exampleConfig⟩
          (_applySign (reading ⟨exampleHass, exampleConfig⟩
            ((exampleConfig.get "entities").get "grid_power"))
            ((exampleConfig.get "entities").get "grid_sign") "grid")),
       specBattery ⟨exampleHass, exampleConfig⟩ "battery_1" "Battery 1",
       specBattery ⟨exampleHass, exampleConfig⟩ "battery_2" "Battery 2"] :=
  (render_layout ⟨exampleHass, .object []⟩ ⟨exampleHass, exampleConfig⟩ exampleConfig
    (by decide) (by decide) exampleCard_wellFormed).1

/-- C9 fails as stated: `setConfig` accepts a configuration with
`decimals: 101`, and `render` throws a `RangeError`; it accepts one whose
`unit` is the record `{toString: 1}`, and `render` throws a `TypeError`. -/
theorem render_throws_after_accepted_config :
    setConfig ⟨pvHass, .object []⟩ (pvConfigWithDecimals (.number (JSNumber.ofNat 101))) =
      .ok ⟨pvHass, pvConfigWithDecimals (.number (JSNumber.ofNat 101))⟩ ∧
    render ⟨pvHass, pvConfigWithDecimals (.number (JSNumber.ofNat 101))⟩ = .error .rangeError ∧
    setConfig ⟨pvHass, .object []⟩
        (.object [("entities", .object [("pv_power", .string "sensor.pv")]),
          ("unit", .object [("toString", .number (JSNumber.ofNat 1))])]) =
      .ok ⟨pvHass, .object [("entities", .object [("pv_power", .string "sensor.pv")]),
          ("unit", .object [("toString", .number (JSNumber.ofNat 1))])]⟩ ∧
    render ⟨pvHass, .object [("entities", .object [("pv_power", .string "sensor.pv")]),
          ("unit", .object [("toString", .number (JSNumber.ofNat 1))])]⟩ = .error .typeError := by
  decide!

/-- A truthy record whose `state` has the text `s`: `_stateValue` is
`parseFloat` of `s`, with `NaN` turned into the absent value. -/
theorem stateValue_of_text (card : Card) (id : JSValue) (key s : String)
    (hkey : id.toString = .ok key)
    (hrec : ((card.hass.get "states").get key).truthy = true)
    (hstate : (((card.hass.get "states").get key).get "state").toString = .ok s) :
    _stateValue card id =
      .ok (if (parseFloatString s).isNaN then none else some (parseFloatString s)) := by
  have hfalsy : JSValue.undefined.truthy = false := rfl
  have h2 : (card.hass.get "states").isNullish = false := by
    cases hn : (card.hass.get "states").isNullish with
    | false => rfl
    | true =>
      rw [JSValue.get_of_nullish key hn, hfalsy] at hrec
      exact absurd hrec (by decide)
  have h1 : card.hass.isNullish = false := by
    cases hn : card.hass.isNullish with
    | false => rfl
    | true =>
      have hund : JSValue.undefined.isNullish = true := rfl
      rw [JSValue.get_of_nullish "states" hn, hund] at h2
      exact absurd h2 (by decide)
  have h4 := JSValue.isNullish_of_truthy hrec
  simp [_stateValue, h1, h2, hrec, h4, hkey, hstate, JSValue.getProp, parseFloat, bind,
    Except.bind, pure, Except.pure]

/-- C9 as amended: for a configuration accepted by `setConfig` and every
snapshot, present or not, `render` completes without an error provided the data
is well-formed (`decimals` in `0 .. 100`; unit, identifiers and state fields
convertible to text): without a snapshot it returns the empty output, with one
it returns the layout, and no read of an entity and no formatting fails, so
that the one error left is the configuration error `setConfig` raises on a
record. A missing record, and a state that `parseFloat` reads as `NaN`, give
an absent reading, and an absent reading is shown as the placeholder `--`. -/
theorem render_total (card0 card : Card) (config : JSValue)
    (hacc : setConfig card0 config = .ok card) (hwf : WellFormed card) :
    (∃ nodes, render card = .ok nodes) ∧
    (card.hass.truthy = false → render card = .ok []) ∧
    (card.hass.truthy = true → render card = .ok (specLayout card)) ∧
    (∀ id ∈ entityIds (config.get "entities"), ∃ r, _stateValue card id = .ok r) ∧
    (∀ value, _format card value = .ok (formatted card value)) ∧
    (∀ soc, socText soc = .ok (socFormatted soc)) ∧
    (∀ (other : Card) (fields : List (String × JSValue)) (err : JSError),
        setConfig other (.object fields) = .error err → err = entitiesRequired) ∧
    (∀ (id : JSValue) (key : String), id.toString = .ok key →
        ((card.hass.get "states").get key).truthy = false → reading card id = none) ∧
    (∀ (id : JSValue) (key s : String), id.toString = .ok key →
        ((card.hass.get "states").get key).truthy = true →
        (((card.hass.get "states").get key).get "state").toString = .ok s →
        (parseFloatString s).isNaN = true → reading card id = none) ∧
    (∀ (id sign : JSValue) (type : String), reading card id = none →
        formatted card (_applySign (reading card id) sign type) = "--") ∧
    socFormatted none = "--" := by
  obtain ⟨hc, -, hnn, hent⟩ := setConfig_ok card0 card config hacc
  subst hc
  have hfalse : card.hass.truthy = false → render card = .ok [] := by
    intro h
    simp [render, h]
  have htrue : card.hass.truthy = true → render card = .ok (specLayout card) :=
    fun h => render_eq_specLayout card hnn hent h hwf
  refine ⟨?_, hfalse, htrue, ?_, fun value => format_ok card value hnn hwf.decimals hwf.unit,
    socText_ok, ?_, ?_, ?_, ?_, rfl⟩
  · cases h : card.hass.truthy with
    | false => exact ⟨_, hfalse h⟩
    | true => exact ⟨_, htrue h⟩
  · intro id hid
    exact ⟨_, stateValue_ok card id (hwf.ids id hid) hwf.states⟩
  · intro other fields err
    cases h : (JSValue.own fields "entities").truthy <;>
      simp [setConfig, JSValue.getProp_object, h, entitiesRequired]
    intro h2
    exact h2.symm
  · intro id key hkey hrec
    simp [reading, stateValue_without_record card id key hkey hrec]
  · intro id key s hkey hrec hstate hnan
    simp [reading, stateValue_of_text card id key s hkey hrec hstate, hnan]
  · intro id sign type hnone
    rw [hnone]
    rfl

/-- C9 at a card with one configured battery whose state of charge is
unavailable: `render` returns its five nodes. -/
theorem render_total_witness :
    render ⟨batteryHass, batteryConfigExample⟩ = .ok
      [.row "PV" "--", .row "Home" "--", .row "Grid" "--",
       .battery (.string "Cellar") "121 VA" "--", .battery (.string "Battery 2") "--" "--"] :=
  ((render_total ⟨batteryHass, .object []⟩ ⟨batteryHass, batteryConfigExample⟩
      batteryConfigExample (by decide) batteryCard_wellFormed).2.2.1 (by decide)).trans
    (by decide!)

/-- C10 at the failing inputs: with `unit: ""` the source prints the empty unit
and the build prints `W`; with `decimals: null` the source uses one decimal and
the build none; `render` shows the same two differences in the PV row. -/
theorem dist_format_differs :
    _format ⟨pvHass, .object [("entities", .object []), ("unit", .string "")]⟩
      (some (JSNumber.ofNat 5)) = .ok "5.0 " ∧
    Dist._format ⟨pvHass, .object [("entities", .object []), ("unit", .string "")]⟩
      (some (JSNumber.ofNat 5)) = .ok "5.0 W" ∧
    _format ⟨pvHass, .object [("entities", .object []), ("decimals", .null)]⟩
      (some (JSNumber.ofNat 5)) = .ok "5.0 W" ∧
    Dist._format ⟨pvHass, .object [("entities", .object []), ("decimals", .null)]⟩
      (some (JSNumber.ofNat 5)) = .ok "5 W" ∧
    (render ⟨pvHass, pvConfigWithDecimals .null⟩).map (fun nodes => nodes.head?) =
      .ok (some (.row "PV" "5.0 W")) ∧
    (Dist.render ⟨pvHass, pvConfigWithDecimals .null⟩).map (fun nodes => nodes.head?) =
      .ok (some (.row "PV" "5 W")) := by
  decide!

/-! ## Sign normalisation: algebra -/

theorem JSNumber.neg_neg (v : JSNumber) : v.neg.neg = v := by
  cases v with
  | nan => rfl
  | inf s => simp [JSNumber.neg]
  | fin s m e => simp [JSNumber.neg]

/-- With a sign that is none of the three invert tags `_applySign` is the
identity on a present value. -/
theorem applySign_of_other (v : JSNumber) (sign : JSValue) (type : String)
    (hsign : ∀ tag ∈ ["pv_neg_gen", "grid_neg_import", "bat_pos_charge"], sign ≠ .string tag) :
    _applySign (some v) sign type = some v := by
  simp only [_applySign]
  split
  · exact absurd rfl (hsign "pv_neg_gen" (by simp))
  · exact absurd rfl (hsign "grid_neg_import" (by simp))
  · exact absurd rfl (hsign "bat_pos_charge" (by simp))
  · rfl

/-- C15: on a present value, normalising twice with the same invert tag gives
the value back (an involution); normalising with an unset tag, or with any tag
that is none of the three, changes nothing, once or twice (idempotent). -/
theorem applySign_twice (v : JSNumber) (type : String) :
    (∀ tag ∈ ["pv_neg_gen", "grid_neg_import", "bat_pos_charge"],
        _applySign (_applySign (some v) (.string tag) type) (.string tag) type = some v) ∧
    (∀ sign : JSValue,
        (∀ tag ∈ ["pv_neg_gen", "grid_neg_import", "bat_pos_charge"], sign ≠ .string tag) →
        _applySign (_applySign (some v) sign type) sign type = _applySign (some v) sign type ∧
        _applySign (some v) sign type = some v) ∧
    _applySign (_applySign (some v) .undefined type) .undefined type = some v := by
  refine ⟨?_, ?_, rfl⟩
  · intro tag htag
    simp only [List.mem_cons, List.mem_singleton, List.not_mem_nil, or_false] at htag
    rcases htag with h | h | h <;> subst h <;>
      simp only [_applySign, JSNumber.neg_neg]
  · intro sign hsign
    have h := applySign_of_other v sign type hsign
    rw [h, h]
    exact ⟨rfl, rfl⟩

/-- C18: the result of `_applySign` does not depend on its `type` argument, so
each of the three invert tags negates a reading of any kind; a PV reading of 5
configured with `pv_sign: "bat_pos_charge"` and a battery reading of 5
configured with `sign: "pv_neg_gen"` are both displayed as `-5.0 W`. -/
theorem applySign_type_irrelevant (value : Option JSNumber) (sign : JSValue) (t1 t2 : String) :
    _applySign value sign t1 = _applySign value sign t2 ∧
    (∀ v : JSNumber, ∀ tag ∈ ["pv_neg_gen", "grid_neg_import", "bat_pos_charge"],
        ∀ type ∈ ["pv", "grid", "bat"], _applySign (some v) (.string tag) type = some v.neg) ∧
    render ⟨pvHass, crossedTagsConfig⟩ =
      .ok [.row "PV" "-5.0 W", .row "Home" "--", .row "Grid" "--",
           .battery (.string "Battery 1") "-5.0 W" "--",
           .battery (.string "Battery 2") "--" "--"] := by
  refine ⟨rfl, ?_, by decide!⟩
  intro v tag htag type _
  simp only [List.mem_cons, List.mem_singleton, List.not_mem_nil, or_false] at htag
  rcases htag with h | h | h <;> subst h <;> rfl

/-! ## The stored configuration -/

/-- The step view of `setConfig` agrees with the functional one. -/
theorem setConfig_eq_step (card : Card) (config : JSValue) :
    setConfig card config =
      (Card.setConfig card config).1.map (fun _ => (Card.setConfig card config).2) := by
  unfold setConfig Card.setConfig
  cases config.getProp "entities" with
  | error err => rfl
  | ok entities => cases h : entities.truthy <;> simp [h, Except.map]

/-- C16: a successful `setConfig(c)` leaves the element with `c` as its stored
configuration, whatever was stored before (and with `hass` untouched); a
failing `setConfig` leaves the element exactly as it was; whether the call
succeeds does not depend on the element, and a configuration whose `entities`
is falsy is never accepted. -/
theorem setConfig_frame (card : Card) (config : JSValue) :
    ((Card.setConfig card config).1 = .ok () →
        (Card.setConfig card config).2 = ⟨card.hass, config⟩) ∧
    (∀ err, (Card.setConfig card config).1 = .error err →
        (Card.setConfig card config).2 = card) ∧
    (∀ other : Card, (Card.setConfig other config).1 = (Card.setConfig card config).1) ∧
    (∀ other : Card, (Card.setConfig card config).1 = .ok () →
        (Card.setConfig other config).2.config = (Card.setConfig card config).2.config) ∧
    ((config.get "entities").truthy = false → (Card.setConfig card config).1 ≠ .ok ()) := by
  unfold Card.setConfig JSValue.getProp
  cases hn : config.isNullish <;> cases ht : (config.get "entities").truthy <;>
    simp [hn, ht]

/-- C17: `getCardSize` returns 3 on every element: whatever configuration and
snapshot it holds, before a `setConfig` and after one, accepted or not. -/
theorem getCardSize_constant (card : Card) (config : JSValue) :
    getCardSize card = 3 ∧
    getCardSize (Card.setConfig card config).2 = 3 ∧
    (∀ card', setConfig card config = .ok card' → getCardSize card' = 3) := by
  exact ⟨rfl, rfl, fun _ _ => rfl⟩

/-! ## Rendering without a snapshot -/

/-- C14: while the host has supplied no `hass` object (it is `undefined`,
`null` or otherwise falsy), `render` returns the empty output, no row and no
battery block, without an error, for every stored configuration: the initial
`{}`, an accepted one, or anything else. -/
theorem render_without_hass (card : Card) (h : card.hass.truthy = false) :
    render card = .ok [] ∧
    render Card.initial = .ok [] ∧
    (∀ config : JSValue, render ⟨.undefined, config⟩ = .ok [] ∧ render ⟨.null, config⟩ = .ok []) := by
  refine ⟨?_, rfl, fun config => ⟨rfl, rfl⟩⟩
  simp [render, h]

/-- C14 at an element that holds the configuration of the end-to-end example
and no `hass` object. -/
theorem render_without_hass_witness :
    render ⟨.undefined, exampleConfig⟩ = .ok [] :=
  (render_without_hass ⟨.undefined, exampleConfig⟩ rfl).1

/-! ## The battery blocks -/

/-- With `{entities: {}}` and a snapshot without a usable record under the key
`undefined`, every field is a placeholder. -/
theorem render_empty_entities (hass : JSValue) (hh : hass.truthy = true)
    (hund : ((hass.get "states").get "undefined").truthy = false) :
    render ⟨hass, emptyEntitiesConfig⟩ =
      .ok [.row "PV" "--", .row "Home" "--", .row "Grid" "--",
           .battery (.string "Battery 1") "--" "--",
           .battery (.string "Battery 2") "--" "--"] := by
  have r : _stateValue ⟨hass, .object [("entities", .object [])]⟩ .undefined = .ok none :=
    stateValue_without_record _ _ "undefined" rfl hund
  have t1 : JSValue.undefined.truthy = false := rfl
  have t2 : ∀ fields, (JSValue.object fields).truthy = true := fun _ => rfl
  have n1 : ∀ fields, (JSValue.object fields).isNullish = false := fun _ => rfl
  simp [render, hh, emptyEntitiesConfig, JSValue.getProp, JSValue.get, JSValue.own,
    JSValue.orElse, t1, t2, n1, r, _applySign, _format, socText, bind,
    Except.bind, pure, Except.pure]

/-- C13 at the failing input: `setConfig({entities: {}})` succeeds, the snapshot
is present and holds one record, stored under the key `undefined`; the PV row,
the Grid row and both battery powers show that record instead of the
placeholder. -/
theorem render_empty_entities_shows_stray_record :
    setConfig ⟨strayRecordHass, .object []⟩ emptyEntitiesConfig =
      .ok ⟨strayRecordHass, emptyEntitiesConfig⟩ ∧
    strayRecordHass.truthy = true ∧
    render ⟨strayRecordHass, emptyEntitiesConfig⟩ =
      .ok [.row "PV" "7.0 W", .row "Home" "--", .row "Grid" "7.0 W",
           .battery (.string "Battery 1") "7.0 W" "--",
           .battery (.string "Battery 2") "7.0 W" "--"] := by
  decide!

theorem twoBatteriesCard_wellFormed : WellFormed ⟨twoBatteriesHass, twoBatteriesConfig⟩ where
  decimals := by decide!
  unit := by decide
  ids := by decide
  states := by
    intro key
    simp only [twoBatteriesHass, JSValue.get, JSValue.own, if_true]
    split_ifs <;> rfl

/-- C11 fails as stated: with the accepted configuration `{entities:
{battery_2: {power: "sensor.b2"}}, decimals: 300}` and a present snapshot
`render` returns no battery block at all, it throws the `RangeError` of
`toFixed`; and with `battery_1: {name: ""}` the label of the first block is
`Battery 1`, not the configured name. -/
theorem battery_block_counterexample :
    setConfig ⟨twoBatteriesHass, .object []⟩
        (.object [("entities", .object [("battery_2", .object [("power", .string "sensor.b2")])]),
          ("decimals", .number (JSNumber.ofNat 300))]) =
      .ok ⟨twoBatteriesHass,
        .object [("entities", .object [("battery_2", .object [("power", .string "sensor.b2")])]),
          ("decimals", .number (JSNumber.ofNat 300))]⟩ ∧
    render ⟨twoBatteriesHass,
        .object [("entities", .object [("battery_2", .object [("power", .string "sensor.b2")])]),
          ("decimals", .number (JSNumber.ofNat 300))]⟩ = .error .rangeError ∧
    (render ⟨twoBatteriesHass,
        .object [("entities", .object [("battery_1", .object [("name", .string "")])])]⟩).map
      (fun nodes => nodes.drop 3) =
      .ok [.battery (.string "Battery 1") "--" "--", .battery (.string "Battery 2") "--" "--"] := by
  decide!

/-- C11 as amended: for an accepted configuration, a present snapshot and
well-formed data, `render` ends with the two battery blocks; the label of block
`i` is the configured `name` of `battery_i` when that is truthy and `Battery i`
otherwise (no name, an empty name, or `battery_i` itself unconfigured), and its
power is `_format(_applySign(reading of battery_i.power, battery_i.sign))`,
formatted without an error, which is `--` when that reading is absent. -/
theorem battery_blocks (card0 card : Card) (config : JSValue)
    (hacc : setConfig card0 config = .ok card) (hhass : card.hass.truthy = true)
    (hwf : WellFormed card) :
    (∃ pv home grid soc1 soc2, render card = .ok [pv, home, grid,
        .battery
          (if ((batteryConfig (config.get "entities") "battery_1").get "name").truthy
           then (batteryConfig (config.get "entities") "battery_1").get "name"
           else .string "Battery 1")
          (formatted card (_applySign
            (reading card ((batteryConfig (config.get "entities") "battery_1").get "power"))
            ((batteryConfig (config.get "entities") "battery_1").get "sign") "bat")) soc1,
        .battery
          (if ((batteryConfig (config.get "entities") "battery_2").get "name").truthy
           then (batteryConfig (config.get "entities") "battery_2").get "name"
           else .string "Battery 2")
          (formatted card (_applySign
            (reading card ((batteryConfig (config.get "entities") "battery_2").get "power"))
            ((batteryConfig (config.get "entities") "battery_2").get "sign") "bat")) soc2]) ∧
    (∀ key ∈ ["battery_1", "battery_2"],
        ((config.get "entities").get key).truthy = false →
        ((batteryConfig (config.get "entities") key).get "name").truthy = false) ∧
    (∀ key ∈ ["battery_1", "battery_2"],
        ((config.get "entities").get key).truthy = true →
        batteryConfig (config.get "entities") key = (config.get "entities").get key) ∧
    (∀ key ∈ ["battery_1", "battery_2"],
        _stateValue card ((batteryConfig (config.get "entities") key).get "power") =
          .ok (reading card ((batteryConfig (config.get "entities") key).get "power")) ∧
        _format card (_applySign
            (reading card ((batteryConfig (config.get "entities") key).get "power"))
            ((batteryConfig (config.get "entities") key).get "sign") "bat") =
          .ok (formatted card (_applySign
            (reading card ((batteryConfig (config.get "entities") key).get "power"))
            ((batteryConfig (config.get "entities") key).get "sign") "bat")) ∧
        (reading card ((batteryConfig (config.get "entities") key).get "power") = none →
          formatted card (_applySign
            (reading card ((batteryConfig (config.get "entities") key).get "power"))
            ((batteryConfig (config.get "entities") key).get "sign") "bat") = "--")) := by
  obtain ⟨hc, -, hnn, hent⟩ := setConfig_ok card0 card config hacc
  subst hc
  refine ⟨?_, ?_, ?_, ?_⟩
  · rw [render_eq_specLayout card hnn hent hhass hwf]
    exact ⟨_, _, _, _, _, rfl⟩
  · intro key _ hkey
    simp only [batteryConfig, JSValue.orElse, hkey, Bool.false_eq_true, if_false]
    rfl
  · intro key _ hkey
    simp [batteryConfig, JSValue.orElse, hkey]
  · intro key hkey
    have hid : ((batteryConfig (card.config.get "entities") key).get "power").printable = true := by
      apply hwf.ids
      simp only [List.mem_cons, List.mem_singleton, List.not_mem_nil, or_false] at hkey
      rcases hkey with h | h <;> subst h <;> simp [entityIds]
    refine ⟨stateValue_ok card _ hid hwf.states,
      format_ok card _ hnn hwf.decimals hwf.unit, ?_⟩
    intro hnone
    rw [hnone]
    rfl

/-- C11 at a card with a named first battery and a second one that reports
charging as positive: the blocks show `Garage`, `250.0 W` and `Battery 2`,
`-40.0 W`. -/
theorem battery_blocks_witness :
    (∀ key ∈ ["battery_1", "battery_2"],
        _stateValue ⟨twoBatteriesHass, twoBatteriesConfig⟩
            ((batteryConfig (twoBatteriesConfig.get "entities") key).get "power") =
          .ok (reading ⟨twoBatteriesHass, twoBatteriesConfig⟩
            ((batteryConfig (twoBatteriesConfig.get "entities") key).get "power")) ∧
        _format ⟨twoBatteriesHass, twoBatteriesConfig⟩ (_applySign
            (reading ⟨twoBatteriesHass, twoBatteriesConfig⟩
              ((batteryConfig (twoBatteriesConfig.get "entities") key).get "power"))
            ((batteryConfig (twoBatteriesConfig.get "entities") key).get "sign") "bat") =
          .ok (formatted ⟨twoBatteriesHass, twoBatteriesConfig⟩ (_applySign
            (reading ⟨twoBatteriesHass, twoBatteriesConfig⟩
              ((batteryConfig (twoBatteriesConfig.get "entities") key).get "power"))
            ((batteryConfig (twoBatteriesConfig.get "entities") key).get "sign") "bat")) ∧
        (reading ⟨twoBatteriesHass, twoBatteriesConfig⟩
            ((batteryConfig (twoBatteriesConfig.get "entities") key).get "power") = none →
          formatted ⟨twoBatteriesHass, twoBatteriesConfig⟩ (_applySign
            (reading ⟨twoBatteriesHass, twoBatteriesConfig⟩
              ((batteryConfig (twoBatteriesConfig.get "entities") key).get "power"))
            ((batteryConfig (twoBatteriesConfig.get "entities") key).get "sign") "bat") = "--")) ∧
    (render ⟨twoBatteriesHass, twoBatteriesConfig⟩).map (fun nodes => nodes.drop 3) =
      .ok [.battery (.string "Garage") "250.0 W" "--",
           .battery (.string "Battery 2") "-40.0 W" "--"] :=
  ⟨(battery_blocks ⟨twoBatteriesHass, .object []⟩ ⟨twoBatteriesHass, twoBatteriesConfig⟩
      twoBatteriesConfig (by decide) (by decide) twoBatteriesCard_wellFormed).2.2.2,
   by decide!⟩

/-! ## The state of charge -/

/-- A reading depends on the element through its `hass` object only. -/
theorem reading_eq_of_hass (card card2 : Card) (id : JSValue) (h : card2.hass = card.hass) :
    reading card2 id = reading card id := by
  cases card with
  | mk hass config =>
    cases card2 with
    | mk hass2 config2 =>
      simp only at h
      subst h
      rfl

/-- The state-of-charge text of a finite reading below `10 ^ 21`: one decimal
place and the suffix ` %`. -/
theorem socFormatted_fin (s : Bool) (m : Nat) (e : Int)
    (hmag : (JSNumber.frac m e).1 < 10 ^ 21 * (JSNumber.frac m e).2) :
    socFormatted (some (.fin s m e)) = fixedText s m e 1 ++ " %" := by
  have h1 : (JSValue.number (JSNumber.ofNat 1)).toIntegerOrInfinity = .ok (some ((1 : Nat) : Int)) := by
    decide!
  have h := toFixed_eq_fixedText s m e _ 1 h1 (by decide) hmag
  simp [socFormatted, socText, h, bind, Except.bind, pure, Except.pure]

theorem socCard_wellFormed :
    WellFormed ⟨socHass, socConfig (.number (JSNumber.ofNat 2)) (.string "kW")⟩ where
  decimals := by decide!
  unit := by decide
  ids := by decide
  states := by
    intro key
    simp only [socHass, JSValue.get, JSValue.own, if_true]
    split_ifs <;> rfl

/-- C12 fails as stated: the accepted configurations `socConfig 1 "W"` and
`socConfig 150 "W"` differ in `decimals` only; with the first the card shows the
state of charge `80.0 %`, with the second `render` throws and shows none. And a
state of charge of `1e21` is shown as `1e+21 %`, without a decimal place. -/
theorem soc_text_counterexample :
    setConfig ⟨socHass, .object []⟩ (socConfig (.number (JSNumber.ofNat 1)) (.string "W")) =
      .ok ⟨socHass, socConfig (.number (JSNumber.ofNat 1)) (.string "W")⟩ ∧
    setConfig ⟨socHass, .object []⟩ (socConfig (.number (JSNumber.ofNat 150)) (.string "W")) =
      .ok ⟨socHass, socConfig (.number (JSNumber.ofNat 150)) (.string "W")⟩ ∧
    (render ⟨socHass, socConfig (.number (JSNumber.ofNat 1)) (.string "W")⟩).map socTexts =
      .ok ["80.0 %", "--"] ∧
    render ⟨socHass, socConfig (.number (JSNumber.ofNat 150)) (.string "W")⟩ =
      .error .rangeError ∧
    socText (some (parseFloatString "1e21")) = .ok "1e+21 %" := by
  decide!

/-- C12 as amended: for an accepted configuration, a present snapshot and
well-formed data, the state of charge a battery block shows is the reading of
its `soc` entity written by `toFixed(1)` with the suffix ` %` (one decimal place
for a finite reading below `10 ^ 21`), and the placeholder `--` when no `soc`
entity is configured or the reading is absent; `unit` and `decimals` do not
enter it: another accepted, well-formed configuration with the same `entities`
shows the same two texts. -/
theorem soc_text (card0 card : Card) (config : JSValue)
    (hacc : setConfig card0 config = .ok card) (hhass : card.hass.truthy = true)
    (hwf : WellFormed card) :
    (render card).map socTexts = .ok
      [socFormatted
        (if ((batteryConfig (config.get "entities") "battery_1").get "soc").truthy
         then reading card ((batteryConfig (config.get "entities") "battery_1").get "soc")
         else none),
       socFormatted
        (if ((batteryConfig (config.get "entities") "battery_2").get "soc").truthy
         then reading card ((batteryConfig (config.get "entities") "battery_2").get "soc")
         else none)] ∧
    (∀ soc, socText soc = .ok (socFormatted soc)) ∧
    socFormatted none = "--" ∧
    (∀ (s : Bool) (m : Nat) (e : Int), (JSNumber.frac m e).1 < 10 ^ 21 * (JSNumber.frac m e).2 →
        socFormatted (some (.fin s m e)) = fixedText s m e 1 ++ " %") ∧
    (∀ (card0' card' : Card) (config' : JSValue), setConfig card0' config' = .ok card' →
        WellFormed card' → card'.hass = card.hass →
        config'.get "entities" = config.get "entities" →
        (render card').map socTexts = (render card).map socTexts) := by
  obtain ⟨hc, -, hnn, hent⟩ := setConfig_ok card0 card config hacc
  subst hc
  have hfirst : ∀ c : Card, c.config.isNullish = false →
      (c.config.get "entities").truthy = true → c.hass.truthy = true → WellFormed c →
      (render c).map socTexts = .ok
        [socFormatted
          (if ((batteryConfig (c.config.get "entities") "battery_1").get "soc").truthy
           then reading c ((batteryConfig (c.config.get "entities") "battery_1").get "soc")
           else none),
         socFormatted
          (if ((batteryConfig (c.config.get "entities") "battery_2").get "soc").truthy
           then reading c ((batteryConfig (c.config.get "entities") "battery_2").get "soc")
           else none)] := by
    intro c h1 h2 h3 h4
    rw [render_eq_specLayout c h1 h2 h3 h4]
    rfl
  refine ⟨hfirst card hnn hent hhass hwf, socText_ok, rfl, socFormatted_fin, ?_⟩
  intro card0' card' config' hacc' hwf' hh he
  obtain ⟨hc', -, hnn', hent'⟩ := setConfig_ok card0' card' config' hacc'
  subst hc'
  rw [hfirst card' hnn' hent' (by rw [hh]; exact hhass) hwf', hfirst card hnn hent hhass hwf, he,
    reading_eq_of_hass card card' _ hh, reading_eq_of_hass card card' _ hh]

/-- C12 at a card configured with `decimals: 2` and `unit: "kW"`: the state of
charge is still `80.0 %`. -/
theorem soc_text_witness :
    (render ⟨socHass, socConfig (.number (JSNumber.ofNat 2)) (.string "kW")⟩).map socTexts =
      .ok ["80.0 %", "--"] :=
  ((soc_text ⟨socHass, .object []⟩ ⟨socHass, socConfig (.number (JSNumber.ofNat 2)) (.string "kW")⟩
      (socConfig (.number (JSNumber.ofNat 2)) (.string "kW")) (by decide) (by decide)
      socCard_wellFormed).1).trans (by decide!)

end EmsPowerFlowCard
